import Mathlib

/-!
A shallow embedding of the cluster upgrade state machine implemented in
`pkg/upgrade/upgrade_state.go` of `k8s-operator-libs`, together with proofs
about its behaviour.

The embedding is pure: every collaborator (state provider, cordon manager,
pod manager, drain manager) is modelled as a response function returning
`Except String Unit`, and every call the manager makes to a collaborator is
recorded, in order, as an `Effect` in a trace.  A processing step therefore
yields a `ProcRes`: the list of calls it issued and the first error it hit
(if any); once an error occurs no further calls are issued, exactly as the
Go code returns at the first failing call.
-/

namespace Upgrade

/-- The ten node upgrade phases (the `UpgradeState*` string constants used as
keys of `ClusterUpgradeState.NodeStates`). -/
inductive UpgradeState where
  | unknown
  | done
  | upgradeRequired
  | cordonRequired
  | waitForJobsRequired
  | podDeletionRequired
  | drainRequired
  | podRestartRequired
  | failed
  | uncordonRequired
deriving DecidableEq, Repr

/-- Every phase, for exhaustive quantification over phases. -/
def allUpgradeStates : List UpgradeState :=
  [UpgradeState.unknown, UpgradeState.done, UpgradeState.upgradeRequired,
   UpgradeState.cordonRequired, UpgradeState.waitForJobsRequired,
   UpgradeState.podDeletionRequired, UpgradeState.drainRequired,
   UpgradeState.podRestartRequired, UpgradeState.failed,
   UpgradeState.uncordonRequired]

instance : Fintype UpgradeState where
  elems := ⟨(allUpgradeStates : List UpgradeState), by decide⟩
  complete := fun x => by cases x <;> decide

/-- A node (`v1.Node`): we keep the fields the upgrade state machine reads:
`Spec.Unschedulable`, `Labels` and `Annotations` (modelled as association
lists), plus the name for identification. -/
structure Node where
  name : String
  unschedulable : Bool
  labels : List (String × String)
  annotations : List (String × String)
deriving DecidableEq, Repr

/-- Go map lookup: first value bound to `k`, if any. -/
def lookupKV (l : List (String × String)) (k : String) : Option String :=
  (l.find? (fun p => p.1 == k)).map (fun p => p.2)

/-- One entry of `Pod.Status.ContainerStatuses`; only `Ready` is read. -/
structure ContainerStatus where
  ready : Bool
deriving DecidableEq, Repr

/-- A driver pod (`v1.Pod`) with the fields the state machine reads.
`templateGeneration` carries the result of `utils.GetPodTemplateGeneration`
(`none` models the case where that helper fails, e.g. the generation label
is absent or unparsable). `deletionTimestampIsZero` models
`ObjectMeta.DeletionTimestamp.IsZero()`. -/
structure Pod where
  name : String
  templateGeneration : Option Int
  deletionTimestampIsZero : Bool
  statusPhase : String
  containerStatuses : List ContainerStatus
deriving DecidableEq, Repr

/-- The daemonset controlling the driver pods; only `GetGeneration()` is read. -/
structure DaemonSet where
  generation : Int
deriving DecidableEq, Repr

/-- `NodeUpgradeState`: a node paired with its driver pod and the daemonset. -/
structure NodeUpgradeState where
  node : Node
  driverPod : Pod
  driverDaemonSet : DaemonSet
deriving DecidableEq, Repr

/-- `ClusterUpgradeState`: the snapshot, a total map from phase to the list of
node upgrade units currently in that phase (a Go map lookup on a missing key
yields the empty list, so a total function is an exact model). -/
structure ClusterUpgradeState where
  nodeStates : UpgradeState → List NodeUpgradeState

/-- `v1alpha1.WaitForCompletionSpec`; only `PodSelector` is read. -/
structure WaitForCompletionSpec where
  podSelector : String
deriving DecidableEq, Repr

/-- `v1alpha1.PodDeletionSpec`; passed through opaquely to the pod manager. -/
structure PodDeletionSpec where
  podSelector : String
deriving DecidableEq, Repr

/-- `v1alpha1.DrainSpec`; the state machine reads `Enable` and reads/writes
`PodSelector`; all other fields are passed through untouched. -/
structure DrainSpec where
  enable : Bool
  podSelector : String
deriving DecidableEq, Repr

/-- `v1alpha1.DriverUpgradePolicySpec` with the recognized options. -/
structure DriverUpgradePolicySpec where
  autoUpgrade : Bool
  maxParallelUpgrades : Int
  waitForCompletion : Option WaitForCompletionSpec
  podDeletion : Option PodDeletionSpec
  drainSpec : Option DrainSpec
deriving Repr

/-- Modelled from the spec: the well-known annotation key identifying "node
was unschedulable before upgrade started" (`GetUpgradeInitialStateAnnotationKey`
is defined outside the provided source file). -/
def GetUpgradeInitialStateAnnotationKey : String :=
  "nvidia.com/node-initial-state.unschedulable"

/-- Modelled from the spec: the well-known label key identifying "skip upgrade
for this node" (`GetUpgradeSkipNodeLabelKey` is defined outside the provided
source file). -/
def GetUpgradeSkipNodeLabelKey : String :=
  "nvidia.com/node-upgrade.skip"

/-- Modelled from the spec: the well-known label key identifying "exclude this
pod from drain eviction" (`GetUpgradeSkipDrainPodLabelKey` is defined outside
the provided source file). -/
def GetUpgradeSkipDrainPodLabelKey : String :=
  "nvidia.com/drain.skip"

/-- Modelled from the spec: `utils.GetPodTemplateGeneration` (defined outside
the provided source file) reads the driver pod's template generation and can
fail; we model its outcome as data carried by the pod. -/
def GetPodTemplateGeneration (pod : Pod) : Except String Int :=
  match pod.templateGeneration with
  | some g => Except.ok g
  | none => Except.error ("failed to get pod template generation " ++ pod.name)

/-- `isNodeUnschedulable` from the source. -/
def isNodeUnschedulable (node : Node) : Bool :=
  if node.unschedulable then true else false

/-- `skipNodeUpgrade` from the source: true if the node is labelled to skip
driver upgrades (a missing label reads as `""` in Go, hence the `some `
comparison). -/
def skipNodeUpgrade (node : Node) : Bool :=
  if lookupKV node.labels GetUpgradeSkipNodeLabelKey = some "true" then true
  else false

/-- `isDriverPodInSync` from the source: generation matches, pod phase is
`Running`, there is at least one container status and none of them is
un-ready. -/
def isDriverPodInSync (u : NodeUpgradeState) : Except String Bool :=
  match GetPodTemplateGeneration u.driverPod with
  | Except.error e => Except.error e
  | Except.ok g =>
    if g = u.driverDaemonSet.generation ∧
        u.driverPod.statusPhase = "Running" ∧
        u.driverPod.containerStatuses ≠ [] then
      Except.ok (u.driverPod.containerStatuses.all (fun cs => cs.ready))
    else
      Except.ok false

/-- One externally visible call issued by the state manager. -/
inductive Effect where
  | changeNodeUpgradeState (node : Node) (newState : UpgradeState)
  | changeNodeUpgradeAnnot (node : Node) (key value : String)
  | cordon (node : Node)
  | uncordon (node : Node)
  | scheduleCheckOnPodCompletion (selector : String) (nodes : List Node)
  | schedulePodEviction (deletionSpec : Option PodDeletionSpec) (nodes : List Node)
  | schedulePodsRestart (pods : List Pod)
  | scheduleNodesDrain (spec : DrainSpec) (nodes : List Node)
deriving DecidableEq, Repr

/-- The collaborators' responses: for every call the manager can make, the
environment determines success or an error. -/
structure Collaborators where
  changeNodeUpgradeState : Node → UpgradeState → Except String Unit
  changeNodeUpgradeAnnot : Node → String → String → Except String Unit
  cordon : Node → Except String Unit
  uncordon : Node → Except String Unit
  scheduleCheckOnPodCompletion : String → List Node → Except String Unit
  schedulePodEviction : Option PodDeletionSpec → List Node → Except String Unit
  schedulePodsRestart : List Pod → Except String Unit
  scheduleNodesDrain : DrainSpec → List Node → Except String Unit

/-- Result of one processing step: the calls issued (in order) and the first
error encountered, if any. -/
structure ProcRes where
  trace : List Effect
  err : Option String
deriving Repr

/-- The result of a step that issued no calls and hit no error. -/
def ProcRes.ok : ProcRes := ⟨[], none⟩

/-- Sequential composition: if the first step errored, the second never runs
(the Go code returns at the first failing call); effects of the first step
are kept either way. -/
def ProcRes.seq (a b : ProcRes) : ProcRes :=
  match a.err with
  | some e => ⟨a.trace, some e⟩
  | none => ⟨a.trace ++ b.trace, b.err⟩

/-- One collaborator call: the call is recorded in the trace and the
response decides the error. -/
def collabCall (e : Effect) (r : Except String Unit) : ProcRes :=
  ⟨[e], match r with
        | Except.ok _ => none
        | Except.error s => some s⟩

/-- A per-node loop: process each unit in order, stopping at the first
error. -/
def seqMap (f : NodeUpgradeState → ProcRes) : List NodeUpgradeState → ProcRes
  | [] => ProcRes.ok
  | u :: rest => ProcRes.seq (f u) (seqMap f rest)

/-- Loop body of `ProcessDoneOrUnknownNodes` for a single unit. -/
def processDoneOrUnknownOne (c : Collaborators) (nodeStateName : UpgradeState)
    (u : NodeUpgradeState) : ProcRes :=
  match GetPodTemplateGeneration u.driverPod with
  | Except.error e => ⟨[], some e⟩
  | Except.ok g =>
    if g ≠ u.driverDaemonSet.generation then
      ProcRes.seq
        (if isNodeUnschedulable u.node then
          collabCall
            (Effect.changeNodeUpgradeAnnot u.node GetUpgradeInitialStateAnnotationKey "true")
            (c.changeNodeUpgradeAnnot u.node GetUpgradeInitialStateAnnotationKey "true")
        else ProcRes.ok)
        (collabCall
          (Effect.changeNodeUpgradeState u.node UpgradeState.upgradeRequired)
          (c.changeNodeUpgradeState u.node UpgradeState.upgradeRequired))
    else if nodeStateName = UpgradeState.unknown then
      collabCall
        (Effect.changeNodeUpgradeState u.node UpgradeState.done)
        (c.changeNodeUpgradeState u.node UpgradeState.done)
    else ProcRes.ok

/-- `ProcessDoneOrUnknownNodes` from the source. -/
def ProcessDoneOrUnknownNodes (c : Collaborators) (s : ClusterUpgradeState)
    (nodeStateName : UpgradeState) : ProcRes :=
  seqMap (processDoneOrUnknownOne c nodeStateName) (s.nodeStates nodeStateName)

/-- The loop of `ProcessUpgradeRequiredNodes`: breaks once `limit ≤ 0`, skips
(without consuming the limit) nodes labelled to skip upgrades, otherwise
moves the node to `CordonRequired`, consuming one slot on success. -/
def processUpgradeRequiredList (c : Collaborators) :
    Int → List NodeUpgradeState → ProcRes
  | _, [] => ProcRes.ok
  | limit, u :: rest =>
    if limit ≤ 0 then ProcRes.ok
    else if skipNodeUpgrade u.node then processUpgradeRequiredList c limit rest
    else
      match c.changeNodeUpgradeState u.node UpgradeState.cordonRequired with
      | Except.ok _ =>
        ProcRes.seq ⟨[Effect.changeNodeUpgradeState u.node UpgradeState.cordonRequired], none⟩
          (processUpgradeRequiredList c (limit - 1) rest)
      | Except.error e =>
        ⟨[Effect.changeNodeUpgradeState u.node UpgradeState.cordonRequired], some e⟩

/-- `ProcessUpgradeRequiredNodes` from the source. -/
def ProcessUpgradeRequiredNodes (c : Collaborators) (s : ClusterUpgradeState)
    (limit : Int) : ProcRes :=
  processUpgradeRequiredList c limit (s.nodeStates UpgradeState.upgradeRequired)

/-- Loop body of `ProcessCordonRequiredNodes` for a single unit: cordon, then
move to `WaitForJobsRequired`. -/
def processCordonOne (c : Collaborators) (u : NodeUpgradeState) : ProcRes :=
  ProcRes.seq
    (collabCall (Effect.cordon u.node) (c.cordon u.node))
    (collabCall
      (Effect.changeNodeUpgradeState u.node UpgradeState.waitForJobsRequired)
      (c.changeNodeUpgradeState u.node UpgradeState.waitForJobsRequired))

/-- `ProcessCordonRequiredNodes` from the source. -/
def ProcessCordonRequiredNodes (c : Collaborators) (s : ClusterUpgradeState) : ProcRes :=
  seqMap (processCordonOne c) (s.nodeStates UpgradeState.cordonRequired)

/-- `ProcessWaitForJobsRequiredNodes` from the source.  With no pod selector
configured every node is advanced to `PodDeletionRequired` (the write's error
is discarded by the Go code); otherwise, if there is at least one node, a
completion check is scheduled for the batch. -/
def ProcessWaitForJobsRequiredNodes (c : Collaborators) (s : ClusterUpgradeState)
    (waitForCompletionSpec : Option WaitForCompletionSpec) : ProcRes :=
  let nodes := (s.nodeStates UpgradeState.waitForJobsRequired).map (fun u => u.node)
  match waitForCompletionSpec with
  | none =>
    ⟨nodes.map (fun n => Effect.changeNodeUpgradeState n UpgradeState.podDeletionRequired), none⟩
  | some ws =>
    if ws.podSelector = "" then
      ⟨nodes.map (fun n => Effect.changeNodeUpgradeState n UpgradeState.podDeletionRequired), none⟩
    else if nodes = [] then ProcRes.ok
    else
      collabCall (Effect.scheduleCheckOnPodCompletion ws.podSelector nodes)
        (c.scheduleCheckOnPodCompletion ws.podSelector nodes)

/-- `ProcessPodDeletionRequiredNodes` from the source. -/
def ProcessPodDeletionRequiredNodes (c : Collaborators) (s : ClusterUpgradeState)
    (podDeletionSpec : Option PodDeletionSpec) : ProcRes :=
  let nodes := (s.nodeStates UpgradeState.podDeletionRequired).map (fun u => u.node)
  if nodes = [] then ProcRes.ok
  else
    collabCall (Effect.schedulePodEviction podDeletionSpec nodes)
      (c.schedulePodEviction podDeletionSpec nodes)

/-- The drain-disabled path of `ProcessDrainNodes`: every `DrainRequired` node
is moved straight to `PodRestartRequired`. -/
def processDrainDisabledList (c : Collaborators) : List NodeUpgradeState → ProcRes :=
  seqMap (fun u =>
    collabCall (Effect.changeNodeUpgradeState u.node UpgradeState.podRestartRequired)
      (c.changeNodeUpgradeState u.node UpgradeState.podRestartRequired))

/-- The selector term excluding the operator's own pod from drain eviction. -/
def skipDrainPodSelector : String := GetUpgradeSkipDrainPodLabelKey ++ "!=true"

/-- The selector overwrite `ProcessDrainNodes` performs on an enabled drain
spec: install the exclusion term as the whole selector when the selector is
empty, otherwise append it. -/
def drainAugment (ds : DrainSpec) : DrainSpec :=
  { ds with
    podSelector :=
      if ds.podSelector = "" then skipDrainPodSelector
      else ds.podSelector ++ "," ++ skipDrainPodSelector }

/-- `ProcessDrainNodes` from the source.  Along with the trace it returns the
drain spec as left behind in the caller's policy object: the Go code mutates
`drainSpec.PodSelector` in place (through the pointer held by the policy)
before handing the spec to the drain manager. -/
def ProcessDrainNodes (c : Collaborators) (s : ClusterUpgradeState)
    (drainSpec : Option DrainSpec) : ProcRes × Option DrainSpec :=
  match drainSpec with
  | none => (processDrainDisabledList c (s.nodeStates UpgradeState.drainRequired), none)
  | some ds =>
    if ds.enable = false then
      (processDrainDisabledList c (s.nodeStates UpgradeState.drainRequired), some ds)
    else
      let newSelector :=
        if ds.podSelector = "" then skipDrainPodSelector
        else ds.podSelector ++ "," ++ skipDrainPodSelector
      let newSpec : DrainSpec := { ds with podSelector := newSelector }
      let nodes := (s.nodeStates UpgradeState.drainRequired).map (fun u => u.node)
      (collabCall (Effect.scheduleNodesDrain newSpec nodes)
        (c.scheduleNodesDrain newSpec nodes), some newSpec)

/-- Loop body of `ProcessPodRestartNodes` for a single unit: also returns the
driver pods this unit contributes to the batched restart call. -/
def processPodRestartOne (c : Collaborators) (u : NodeUpgradeState) :
    ProcRes × List Pod :=
  match GetPodTemplateGeneration u.driverPod with
  | Except.error e => (⟨[], some e⟩, [])
  | Except.ok g =>
    if g ≠ u.driverDaemonSet.generation then
      if u.driverPod.deletionTimestampIsZero then (ProcRes.ok, [u.driverPod])
      else (ProcRes.ok, [])
    else
      match isDriverPodInSync u with
      | Except.error e => (⟨[], some e⟩, [])
      | Except.ok inSync =>
        if inSync then
          let newState :=
            if (lookupKV u.node.annotations GetUpgradeInitialStateAnnotationKey).isSome then
              UpgradeState.done
            else UpgradeState.uncordonRequired
          let r1 :=
            collabCall (Effect.changeNodeUpgradeState u.node newState)
              (c.changeNodeUpgradeState u.node newState)
          if newState = UpgradeState.done then
            (ProcRes.seq r1
              (collabCall
                (Effect.changeNodeUpgradeAnnot u.node GetUpgradeInitialStateAnnotationKey "null")
                (c.changeNodeUpgradeAnnot u.node GetUpgradeInitialStateAnnotationKey "null")),
             [])
          else (r1, [])
        else (ProcRes.ok, [])

/-- The loop of `ProcessPodRestartNodes`, accumulating the pods to restart and
stopping at the first error. -/
def processPodRestartList (c : Collaborators) :
    List NodeUpgradeState → ProcRes × List Pod
  | [] => (ProcRes.ok, [])
  | u :: rest =>
    let r := processPodRestartOne c u
    match r.1.err with
    | some _ => r
    | none =>
      let r2 := processPodRestartList c rest
      (ProcRes.seq r.1 r2.1, r.2 ++ r2.2)

/-- `ProcessPodRestartNodes` from the source: run the loop, then (if no error
occurred) schedule the batched pod restart. -/
def ProcessPodRestartNodes (c : Collaborators) (s : ClusterUpgradeState) : ProcRes :=
  let r := processPodRestartList c (s.nodeStates UpgradeState.podRestartRequired)
  match r.1.err with
  | some _ => r.1
  | none =>
    ProcRes.seq r.1
      (collabCall (Effect.schedulePodsRestart r.2) (c.schedulePodsRestart r.2))

/-- Loop body of `ProcessUpgradeFailedNodes` for a single unit. -/
def processUpgradeFailedOne (c : Collaborators) (u : NodeUpgradeState) : ProcRes :=
  match isDriverPodInSync u with
  | Except.error e => ⟨[], some e⟩
  | Except.ok inSync =>
    if inSync then
      let newState :=
        if (lookupKV u.node.annotations GetUpgradeInitialStateAnnotationKey).isSome then
          UpgradeState.done
        else UpgradeState.uncordonRequired
      let r1 :=
        collabCall (Effect.changeNodeUpgradeState u.node newState)
          (c.changeNodeUpgradeState u.node newState)
      if newState = UpgradeState.done then
        ProcRes.seq r1
          (collabCall
            (Effect.changeNodeUpgradeAnnot u.node GetUpgradeInitialStateAnnotationKey "null")
            (c.changeNodeUpgradeAnnot u.node GetUpgradeInitialStateAnnotationKey "null"))
      else r1
    else ProcRes.ok

/-- `ProcessUpgradeFailedNodes` from the source. -/
def ProcessUpgradeFailedNodes (c : Collaborators) (s : ClusterUpgradeState) : ProcRes :=
  seqMap (processUpgradeFailedOne c) (s.nodeStates UpgradeState.failed)

/-- Loop body of `ProcessUncordonRequiredNodes` for a single unit: uncordon,
then move to `Done`. -/
def processUncordonOne (c : Collaborators) (u : NodeUpgradeState) : ProcRes :=
  ProcRes.seq
    (collabCall (Effect.uncordon u.node) (c.uncordon u.node))
    (collabCall (Effect.changeNodeUpgradeState u.node UpgradeState.done)
      (c.changeNodeUpgradeState u.node UpgradeState.done))

/-- `ProcessUncordonRequiredNodes` from the source. -/
def ProcessUncordonRequiredNodes (c : Collaborators) (s : ClusterUpgradeState) : ProcRes :=
  seqMap (processUncordonOne c) (s.nodeStates UpgradeState.uncordonRequired)

/-- `upgradesInProgress` as computed at the top of `ApplyState`: the number of
nodes in the seven in-flight phases. -/
def upgradesInProgress (s : ClusterUpgradeState) : Nat :=
  (s.nodeStates UpgradeState.cordonRequired).length +
  (s.nodeStates UpgradeState.drainRequired).length +
  (s.nodeStates UpgradeState.podRestartRequired).length +
  (s.nodeStates UpgradeState.waitForJobsRequired).length +
  (s.nodeStates UpgradeState.podDeletionRequired).length +
  (s.nodeStates UpgradeState.failed).length +
  (s.nodeStates UpgradeState.uncordonRequired).length

/-- `upgradesAvailable` as computed at the top of `ApplyState`. -/
def upgradesAvailable (s : ClusterUpgradeState) (p : DriverUpgradePolicySpec) : Int :=
  if p.maxParallelUpgrades = 0 then
    ((s.nodeStates UpgradeState.upgradeRequired).length : Int)
  else p.maxParallelUpgrades - (upgradesInProgress s : Int)

/-- The result of one `ApplyState` invocation: the trace of collaborator
calls, the returned error (if any), and the policy object as the caller sees
it afterwards (its drain spec may have been mutated in place by
`ProcessDrainNodes`). -/
structure ApplyResult where
  trace : List Effect
  err : Option String
  policyOut : Option DriverUpgradePolicySpec

/-- `ApplyState` from the source: nil-snapshot check, auto-upgrade gate, slot
computation, then the ten phase processors in their fixed order, stopping at
the first error. -/
def ApplyState (c : Collaborators) (currentState : Option ClusterUpgradeState)
    (upgradePolicy : Option DriverUpgradePolicySpec) : ApplyResult :=
  match currentState with
  | none => ⟨[], some "currentState should not be empty", upgradePolicy⟩
  | some s =>
    match upgradePolicy with
    | none => ⟨[], none, none⟩
    | some p =>
      if p.autoUpgrade = false then ⟨[], none, some p⟩
      else
        let pre : ProcRes :=
          ProcRes.seq (ProcessDoneOrUnknownNodes c s UpgradeState.unknown)
            (ProcRes.seq (ProcessDoneOrUnknownNodes c s UpgradeState.done)
              (ProcRes.seq (ProcessUpgradeRequiredNodes c s (upgradesAvailable s p))
                (ProcRes.seq (ProcessCordonRequiredNodes c s)
                  (ProcRes.seq (ProcessWaitForJobsRequiredNodes c s p.waitForCompletion)
                    (ProcessPodDeletionRequiredNodes c s p.podDeletion)))))
        match pre.err with
        | some e => ⟨pre.trace, some e, some p⟩
        | none =>
          let dr := ProcessDrainNodes c s p.drainSpec
          let post : ProcRes :=
            ProcRes.seq dr.1
              (ProcRes.seq (ProcessPodRestartNodes c s)
                (ProcRes.seq (ProcessUpgradeFailedNodes c s)
                  (ProcessUncordonRequiredNodes c s)))
          ⟨pre.trace ++ post.trace, post.err, some { p with drainSpec := dr.2 }⟩

/-- The ten phase processing steps in exactly the order `ApplyState` runs
them. -/
def stageList (c : Collaborators) (s : ClusterUpgradeState)
    (p : DriverUpgradePolicySpec) : List ProcRes :=
  [ProcessDoneOrUnknownNodes c s UpgradeState.unknown,
   ProcessDoneOrUnknownNodes c s UpgradeState.done,
   ProcessUpgradeRequiredNodes c s (upgradesAvailable s p),
   ProcessCordonRequiredNodes c s,
   ProcessWaitForJobsRequiredNodes c s p.waitForCompletion,
   ProcessPodDeletionRequiredNodes c s p.podDeletion,
   (ProcessDrainNodes c s p.drainSpec).1,
   ProcessPodRestartNodes c s,
   ProcessUpgradeFailedNodes c s,
   ProcessUncordonRequiredNodes c s]

/-- The calls issued by a sequence of steps run in order with stop-at-first
error: the traces of every step before the first failing one, plus the trace
of the failing step itself. -/
def traceUntilErr : List ProcRes → List Effect
  | [] => []
  | r :: rest =>
    match r.err with
    | some _ => r.trace
    | none => r.trace ++ traceUntilErr rest

/-- The first error produced by a sequence of steps run in order. -/
def firstErr : List ProcRes → Option String
  | [] => none
  | r :: rest =>
    match r.err with
    | some e => some e
    | none => firstErr rest

/-- Recognizes a state write moving a node to `CordonRequired` (the only kind
of write that starts an upgrade and consumes a concurrency slot). -/
def Effect.isMoveToCordon : Effect → Bool
  | Effect.changeNodeUpgradeState _ UpgradeState.cordonRequired => true
  | _ => false

/-- The in-sync condition exactly as the specification sentence words it:
generation matches, pod phase is Running, and every *reported* container is
ready (vacuously true when no container status is reported). Stated for
comparison against `isDriverPodInSync` from the source. -/
def inSyncClaimCheck (u : NodeUpgradeState) : Bool :=
  (match GetPodTemplateGeneration u.driverPod with
   | Except.ok g => g == u.driverDaemonSet.generation
   | Except.error _ => false) &&
  (u.driverPod.statusPhase == "Running") &&
  u.driverPod.containerStatuses.all (fun cs => cs.ready)

/-- The drain spec held by the caller's policy object after `n` invocations
of `ProcessDrainNodes` against the same policy object (each invocation feeds
back the spec the previous one left behind). -/
def drainSpecIter (c : Collaborators) (s : ClusterUpgradeState) (ds : DrainSpec) :
    Nat → DrainSpec
  | 0 => ds
  | n + 1 =>
    match (ProcessDrainNodes c s (some (drainSpecIter c s ds n))).2 with
    | some d => d
    | none => drainSpecIter c s ds n

instance {ε α : Type} [DecidableEq ε] [DecidableEq α] : DecidableEq (Except ε α) :=
  fun a b =>
    match a, b with
    | Except.ok x, Except.ok y =>
      if h : x = y then isTrue (by rw [h])
      else isFalse (by intro hc; cases hc; exact h rfl)
    | Except.error x, Except.error y =>
      if h : x = y then isTrue (by rw [h])
      else isFalse (by intro hc; cases hc; exact h rfl)
    | Except.ok _, Except.error _ => isFalse (by intro hc; cases hc)
    | Except.error _, Except.ok _ => isFalse (by intro hc; cases hc)

/-! ### Concrete fixtures used by witnesses and counterexamples -/

/-- An environment in which every collaborator call succeeds. -/
def collabOK : Collaborators where
  changeNodeUpgradeState := fun _ _ => Except.ok ()
  changeNodeUpgradeAnnot := fun _ _ _ => Except.ok ()
  cordon := fun _ => Except.ok ()
  uncordon := fun _ => Except.ok ()
  scheduleCheckOnPodCompletion := fun _ _ => Except.ok ()
  schedulePodEviction := fun _ _ => Except.ok ()
  schedulePodsRestart := fun _ => Except.ok ()
  scheduleNodesDrain := fun _ _ => Except.ok ()

/-- An environment in which cordoning fails and everything else succeeds. -/
def collabCordonFail : Collaborators :=
  { collabOK with cordon := fun _ => Except.error "cordon failed" }

/-- A plain schedulable node with no labels or annotations. -/
def nodeA : Node := ⟨"node-a", false, [], []⟩

/-- A second plain node. -/
def nodeB : Node := ⟨"node-b", false, [], []⟩

/-- A third plain node. -/
def nodeC : Node := ⟨"node-c", false, [], []⟩

/-- A node labelled to skip driver upgrades. -/
def nodeSkip : Node := ⟨"node-skip", false, [(GetUpgradeSkipNodeLabelKey, "true")], []⟩

/-- A node carrying the unschedulable-preservation marker. -/
def nodeMarked : Node := ⟨"node-marked", false, [], [(GetUpgradeInitialStateAnnotationKey, "true")]⟩

/-- An externally cordoned (unschedulable) node. -/
def nodeUnsched : Node := ⟨"node-unsched", true, [], []⟩

/-- The daemonset at generation 2. -/
def dsGen2 : DaemonSet := ⟨2⟩

/-- A driver pod matching generation 2, running and ready. -/
def podOk : Pod := ⟨"pod-ok", some 2, true, "Running", [⟨true⟩]⟩

/-- A driver pod at the old generation 1. -/
def podOld : Pod := ⟨"pod-old", some 1, true, "Running", [⟨true⟩]⟩

/-- A running pod at the matching generation that reports no container
statuses at all. -/
def podNoContainers : Pod := ⟨"pod-nc", some 2, true, "Running", []⟩

/-- A unit whose driver pod needs an upgrade. -/
def unitOld : NodeUpgradeState := ⟨nodeA, podOld, dsGen2⟩

/-- A unit whose driver pod is in sync. -/
def unitSync : NodeUpgradeState := ⟨nodeA, podOk, dsGen2⟩

/-- An in-sync unit on a node carrying the preservation marker. -/
def unitSyncMarked : NodeUpgradeState := ⟨nodeMarked, podOk, dsGen2⟩

/-- A needs-upgrade unit on a node labelled to skip upgrades. -/
def unitSkip : NodeUpgradeState := ⟨nodeSkip, podOld, dsGen2⟩

/-- A needs-upgrade unit on an unschedulable node. -/
def unitUnschedOld : NodeUpgradeState := ⟨nodeUnsched, podOld, dsGen2⟩

/-- A unit whose pod matches the generation and runs but reports no
containers. -/
def unitNoContainers : NodeUpgradeState := ⟨nodeA, podNoContainers, dsGen2⟩

/-- The empty snapshot. -/
def snapEmpty : ClusterUpgradeState := ⟨fun _ => []⟩

/-- A snapshot with nodes in a single phase. -/
def snapOne (ph : UpgradeState) (l : List NodeUpgradeState) : ClusterUpgradeState :=
  ⟨fun st => if st = ph then l else []⟩

/-- A policy with auto-upgrade on, two parallel upgrades, and everything else
unset. -/
def policyTwo : DriverUpgradePolicySpec := ⟨true, 2, none, none, none⟩

/-- A policy with auto-upgrade on and no parallelism cap. -/
def policyUnlimited : DriverUpgradePolicySpec := ⟨true, 0, none, none, none⟩

/-- A policy with auto-upgrade off. -/
def policyOff : DriverUpgradePolicySpec := ⟨false, 0, none, none, none⟩

/-- An enabled drain spec with an initial pod selector. -/
def drainOn : DrainSpec := ⟨true, "app=foo"⟩

/-- A disabled drain spec. -/
def drainOff : DrainSpec := ⟨false, ""⟩

/-! ### Basic lemmas about sequential composition of processing steps -/

/-- If the first step failed, the second contributes nothing. -/
theorem ProcRes.seq_of_some {a : ProcRes} {e : String} (b : ProcRes)
    (h : a.err = some e) : ProcRes.seq a b = ⟨a.trace, some e⟩ := by
  simp [ProcRes.seq, h]

/-- If the first step succeeded, traces concatenate and the error is the
second step's. -/
theorem ProcRes.seq_of_none {a : ProcRes} (b : ProcRes) (h : a.err = none) :
    ProcRes.seq a b = ⟨a.trace ++ b.trace, b.err⟩ := by
  simp [ProcRes.seq, h]

/-- An empty successful step is a left unit. -/
theorem ProcRes.seq_ok_left (b : ProcRes) : ProcRes.seq ProcRes.ok b = b := by
  simp [ProcRes.seq, ProcRes.ok]

/-- An empty successful step is a right unit. -/
theorem ProcRes.seq_ok_right (a : ProcRes) : ProcRes.seq a ProcRes.ok = a := by
  rcases a with ⟨t, err⟩
  cases err <;> simp [ProcRes.seq, ProcRes.ok]

/-- Sequential composition is associative. -/
theorem ProcRes.seq_assoc (a b d : ProcRes) :
    ProcRes.seq (ProcRes.seq a b) d = ProcRes.seq a (ProcRes.seq b d) := by
  rcases a with ⟨ta, ea⟩
  rcases b with ⟨tb, eb⟩
  cases ea <;> cases eb <;> simp [ProcRes.seq]

/-- A composed step succeeds exactly when both halves do. -/
theorem ProcRes.seq_err_none_iff (a b : ProcRes) :
    (ProcRes.seq a b).err = none ↔ a.err = none ∧ b.err = none := by
  rcases a with ⟨ta, ea⟩
  cases ea <;> simp [ProcRes.seq]

/-- A call in a composed trace came from one of the halves. -/
theorem ProcRes.mem_seq_trace {x : Effect} {a b : ProcRes}
    (h : x ∈ (ProcRes.seq a b).trace) : x ∈ a.trace ∨ x ∈ b.trace := by
  rcases a with ⟨ta, ea⟩
  cases ea <;> simp_all [ProcRes.seq]

/-- A successful collaborator call. -/
theorem collabCall_ok {r : Except String Unit} (e : Effect)
    (h : r = Except.ok ()) : collabCall e r = ⟨[e], none⟩ := by
  simp [collabCall, h]

/-- A failing collaborator call. -/
theorem collabCall_error {r : Except String Unit} {s : String} (e : Effect)
    (h : r = Except.error s) : collabCall e r = ⟨[e], some s⟩ := by
  simp [collabCall, h]

/-- A per-node loop splits along list concatenation. -/
theorem seqMap_append (f : NodeUpgradeState → ProcRes) (l1 l2 : List NodeUpgradeState) :
    seqMap f (l1 ++ l2) = ProcRes.seq (seqMap f l1) (seqMap f l2) := by
  induction l1 with
  | nil => simp [seqMap, ProcRes.seq_ok_left]
  | cons u rest ih => simp [seqMap, ih, ProcRes.seq_assoc]

/-- A per-node loop succeeds exactly when every iteration does. -/
theorem seqMap_err_none_iff (f : NodeUpgradeState → ProcRes) (l : List NodeUpgradeState) :
    (seqMap f l).err = none ↔ ∀ u ∈ l, (f u).err = none := by
  induction l with
  | nil => simp [seqMap, ProcRes.ok]
  | cons u rest ih => simp [seqMap, ProcRes.seq_err_none_iff, ih]

/-- A call in a per-node loop's trace came from some listed node's
iteration. -/
theorem mem_seqMap_trace {f : NodeUpgradeState → ProcRes} {l : List NodeUpgradeState}
    {x : Effect} (h : x ∈ (seqMap f l).trace) : ∃ u ∈ l, x ∈ (f u).trace := by
  induction l with
  | nil => simp [seqMap, ProcRes.ok] at h
  | cons u rest ih =>
    simp only [seqMap] at h
    rcases ProcRes.mem_seq_trace h with h1 | h2
    · exact ⟨u, by simp, h1⟩
    · rcases ih h2 with ⟨v, hv, hx⟩
      exact ⟨v, by simp [hv], hx⟩

/-- When every iteration succeeds, the loop's trace is the concatenation of
the per-node traces. -/
theorem seqMap_trace_of_all_ok {f : NodeUpgradeState → ProcRes}
    {l : List NodeUpgradeState} (h : ∀ u ∈ l, (f u).err = none) :
    (seqMap f l).trace = (l.map (fun u => (f u).trace)).flatten := by
  induction l with
  | nil => rfl
  | cons u rest ih =>
    have hu : (f u).err = none := h u (by simp)
    have hrest := ih (fun v hv => h v (by simp [hv]))
    simp [seqMap, ProcRes.seq_of_none _ hu, hrest]

/-- A right-nested chain of `seq` computes `traceUntilErr` and `firstErr`. -/
theorem chain_spec (l : List ProcRes) :
    (l.foldr ProcRes.seq ProcRes.ok).trace = traceUntilErr l ∧
    (l.foldr ProcRes.seq ProcRes.ok).err = firstErr l := by
  induction l with
  | nil => exact ⟨rfl, rfl⟩
  | cons r rest ih =>
    cases hr : r.err with
    | some e =>
      simp [List.foldr, ProcRes.seq_of_some _ hr, traceUntilErr, firstErr, hr]
    | none =>
      simp [List.foldr, ProcRes.seq_of_none _ hr, traceUntilErr, firstErr, hr,
        ih.1, ih.2]

/-- Concatenating after an error-free run concatenates traces. -/
theorem traceUntilErr_append_none {l1 : List ProcRes} (l2 : List ProcRes)
    (h : firstErr l1 = none) :
    traceUntilErr (l1 ++ l2) = traceUntilErr l1 ++ traceUntilErr l2 := by
  induction l1 with
  | nil => simp [traceUntilErr]
  | cons r rest ih =>
    cases hr : r.err with
    | some e => simp [firstErr, hr] at h
    | none =>
      simp only [firstErr, hr] at h
      simp [traceUntilErr, hr, ih h]

/-- The first error of a concatenation, when the first half is error-free. -/
theorem firstErr_append_none {l1 : List ProcRes} (l2 : List ProcRes)
    (h : firstErr l1 = none) : firstErr (l1 ++ l2) = firstErr l2 := by
  induction l1 with
  | nil => simp [firstErr]
  | cons r rest ih =>
    cases hr : r.err with
    | some e => simp [firstErr, hr] at h
    | none =>
      simp only [firstErr, hr] at h
      simp [firstErr, hr, ih h]

/-- After an error, later steps contribute no calls. -/
theorem traceUntilErr_append_some {l1 : List ProcRes} (l2 : List ProcRes) {e : String}
    (h : firstErr l1 = some e) :
    traceUntilErr (l1 ++ l2) = traceUntilErr l1 ∧ firstErr (l1 ++ l2) = some e := by
  induction l1 with
  | nil => simp [firstErr] at h
  | cons r rest ih =>
    cases hr : r.err with
    | some e2 =>
      simp only [firstErr, hr] at h
      simp [traceUntilErr, firstErr, hr, h]
    | none =>
      simp only [firstErr, hr] at h
      have := ih h
      simp [traceUntilErr, firstErr, hr, this.1, this.2]

/-- Any call in a stop-at-first-error run came from one of the steps. -/
theorem mem_traceUntilErr {l : List ProcRes} {x : Effect}
    (h : x ∈ traceUntilErr l) : ∃ r ∈ l, x ∈ r.trace := by
  induction l with
  | nil => simp [traceUntilErr] at h
  | cons r rest ih =>
    cases hr : r.err with
    | some e =>
      simp only [traceUntilErr, hr] at h
      exact ⟨r, by simp, h⟩
    | none =>
      simp only [traceUntilErr, hr, List.mem_append] at h
      rcases h with h1 | h2
      · exact ⟨r, by simp, h1⟩
      · rcases ih h2 with ⟨r2, hr2, hx⟩
        exact ⟨r2, by simp [hr2], hx⟩

/-- A call of a given step is in the run's trace provided every step before
it succeeded (the step itself may fail: its calls up to the failure are still
issued). -/
theorem mem_traceUntilErr_of_stage {l1 : List ProcRes} {r : ProcRes}
    (l2 : List ProcRes) (h1 : firstErr l1 = none) {x : Effect} (hx : x ∈ r.trace) :
    x ∈ traceUntilErr (l1 ++ r :: l2) := by
  rw [traceUntilErr_append_none _ h1]
  apply List.mem_append_right
  cases hr : r.err <;> simp [traceUntilErr, hr, hx]

/-- A six-step chain computes `traceUntilErr` and `firstErr` of its list. -/
theorem seq6_spec (r1 r2 r3 r4 r5 r6 : ProcRes) :
    (ProcRes.seq r1 (ProcRes.seq r2 (ProcRes.seq r3 (ProcRes.seq r4
      (ProcRes.seq r5 r6))))).trace = traceUntilErr [r1, r2, r3, r4, r5, r6] ∧
    (ProcRes.seq r1 (ProcRes.seq r2 (ProcRes.seq r3 (ProcRes.seq r4
      (ProcRes.seq r5 r6))))).err = firstErr [r1, r2, r3, r4, r5, r6] := by
  have h := chain_spec [r1, r2, r3, r4, r5, r6]
  simpa [List.foldr, ProcRes.seq_ok_right] using h

/-- A four-step chain computes `traceUntilErr` and `firstErr` of its list. -/
theorem seq4_spec (r7 r8 r9 r10 : ProcRes) :
    (ProcRes.seq r7 (ProcRes.seq r8 (ProcRes.seq r9 r10))).trace
      = traceUntilErr [r7, r8, r9, r10] ∧
    (ProcRes.seq r7 (ProcRes.seq r8 (ProcRes.seq r9 r10))).err
      = firstErr [r7, r8, r9, r10] := by
  have h := chain_spec [r7, r8, r9, r10]
  simpa [List.foldr, ProcRes.seq_ok_right] using h

/-- With auto-upgrade enabled, one `ApplyState` call is exactly the ten phase
processors run in their fixed order with stop-at-first-error semantics. -/
theorem applyStateRun (c : Collaborators) (s : ClusterUpgradeState)
    (p : DriverUpgradePolicySpec) (hauto : p.autoUpgrade = true) :
    (ApplyState c (some s) (some p)).trace = traceUntilErr (stageList c s p) ∧
    (ApplyState c (some s) (some p)).err = firstErr (stageList c s p) := by
  have hsplit : stageList c s p =
      [ProcessDoneOrUnknownNodes c s UpgradeState.unknown,
       ProcessDoneOrUnknownNodes c s UpgradeState.done,
       ProcessUpgradeRequiredNodes c s (upgradesAvailable s p),
       ProcessCordonRequiredNodes c s,
       ProcessWaitForJobsRequiredNodes c s p.waitForCompletion,
       ProcessPodDeletionRequiredNodes c s p.podDeletion] ++
      [(ProcessDrainNodes c s p.drainSpec).1,
       ProcessPodRestartNodes c s,
       ProcessUpgradeFailedNodes c s,
       ProcessUncordonRequiredNodes c s] := rfl
  have h6 := seq6_spec (ProcessDoneOrUnknownNodes c s UpgradeState.unknown)
    (ProcessDoneOrUnknownNodes c s UpgradeState.done)
    (ProcessUpgradeRequiredNodes c s (upgradesAvailable s p))
    (ProcessCordonRequiredNodes c s)
    (ProcessWaitForJobsRequiredNodes c s p.waitForCompletion)
    (ProcessPodDeletionRequiredNodes c s p.podDeletion)
  have h4 := seq4_spec (ProcessDrainNodes c s p.drainSpec).1
    (ProcessPodRestartNodes c s) (ProcessUpgradeFailedNodes c s)
    (ProcessUncordonRequiredNodes c s)
  unfold ApplyState
  simp only [hauto, Bool.true_eq_false, if_false]
  cases hpre : (ProcRes.seq (ProcessDoneOrUnknownNodes c s UpgradeState.unknown)
      (ProcRes.seq (ProcessDoneOrUnknownNodes c s UpgradeState.done)
        (ProcRes.seq (ProcessUpgradeRequiredNodes c s (upgradesAvailable s p))
          (ProcRes.seq (ProcessCordonRequiredNodes c s)
            (ProcRes.seq (ProcessWaitForJobsRequiredNodes c s p.waitForCompletion)
              (ProcessPodDeletionRequiredNodes c s p.podDeletion)))))).err with
  | some e =>
    have he : firstErr [ProcessDoneOrUnknownNodes c s UpgradeState.unknown,
        ProcessDoneOrUnknownNodes c s UpgradeState.done,
        ProcessUpgradeRequiredNodes c s (upgradesAvailable s p),
        ProcessCordonRequiredNodes c s,
        ProcessWaitForJobsRequiredNodes c s p.waitForCompletion,
        ProcessPodDeletionRequiredNodes c s p.podDeletion] = some e := by
      rw [← h6.2, hpre]
    have happ := traceUntilErr_append_some
      [(ProcessDrainNodes c s p.drainSpec).1, ProcessPodRestartNodes c s,
       ProcessUpgradeFailedNodes c s, ProcessUncordonRequiredNodes c s] he
    simp only [hpre]
    refine ⟨?_, ?_⟩
    · rw [hsplit, happ.1]
      exact h6.1
    · rw [hsplit, happ.2]
  | none =>
    have he : firstErr [ProcessDoneOrUnknownNodes c s UpgradeState.unknown,
        ProcessDoneOrUnknownNodes c s UpgradeState.done,
        ProcessUpgradeRequiredNodes c s (upgradesAvailable s p),
        ProcessCordonRequiredNodes c s,
        ProcessWaitForJobsRequiredNodes c s p.waitForCompletion,
        ProcessPodDeletionRequiredNodes c s p.podDeletion] = none := by
      rw [← h6.2, hpre]
    simp only [hpre]
    refine ⟨?_, ?_⟩
    · rw [hsplit, traceUntilErr_append_none _ he]
      rw [← h6.1, ← h4.1]
    · rw [hsplit, firstErr_append_none _ he]
      exact h4.2

/-! ### What calls each phase processor can issue -/

/-- Processing one Unknown/Done unit issues only: the preservation-marker
stamp, a move to `UpgradeRequired`, or a move to `Done` — all for that unit's
node. -/
theorem mem_processDoneOrUnknownOne_trace {c : Collaborators} {st : UpgradeState}
    {u : NodeUpgradeState} {x : Effect}
    (h : x ∈ (processDoneOrUnknownOne c st u).trace) :
    x = Effect.changeNodeUpgradeAnnot u.node GetUpgradeInitialStateAnnotationKey "true" ∨
    x = Effect.changeNodeUpgradeState u.node UpgradeState.upgradeRequired ∨
    x = Effect.changeNodeUpgradeState u.node UpgradeState.done := by
  unfold processDoneOrUnknownOne at h
  split at h
  · simp at h
  · split at h
    · rcases ProcRes.mem_seq_trace h with h1 | h2
      · split at h1
        · simp [collabCall] at h1
          exact Or.inl h1
        · simp [ProcRes.ok] at h1
      · simp [collabCall] at h2
        exact Or.inr (Or.inl h2)
    · split at h
      · simp [collabCall] at h
        exact Or.inr (Or.inr h)
      · simp [ProcRes.ok] at h

/-- The UpgradeRequired loop issues only moves to `CordonRequired`, and only
for listed nodes that are not labelled to skip upgrades. -/
theorem mem_processUpgradeRequiredList_trace {c : Collaborators} :
    ∀ {limit : Int} {l : List NodeUpgradeState} {x : Effect},
    x ∈ (processUpgradeRequiredList c limit l).trace →
    ∃ u ∈ l, skipNodeUpgrade u.node = false ∧
      x = Effect.changeNodeUpgradeState u.node UpgradeState.cordonRequired := by
  intro limit l
  induction l generalizing limit with
  | nil =>
    intro x h
    simp [processUpgradeRequiredList, ProcRes.ok] at h
  | cons u rest ih =>
    intro x h
    unfold processUpgradeRequiredList at h
    split at h
    · simp [ProcRes.ok] at h
    · split at h
      · rcases ih h with ⟨v, hv, hx⟩
        exact ⟨v, by simp [hv], hx⟩
      · rename_i hskip
        have hskip' : skipNodeUpgrade u.node = false := by
          simpa using hskip
        split at h
        · rcases ProcRes.mem_seq_trace h with h1 | h2
          · simp at h1
            exact ⟨u, by simp, hskip', h1⟩
          · rcases ih h2 with ⟨v, hv, hx⟩
            exact ⟨v, by simp [hv], hx⟩
        · simp at h
          exact ⟨u, by simp, hskip', h⟩

/-- Processing one CordonRequired unit issues the cordon call and, only if
that call succeeded, the move to `WaitForJobsRequired`. -/
theorem mem_processCordonOne_trace {c : Collaborators} {u : NodeUpgradeState}
    {x : Effect} (h : x ∈ (processCordonOne c u).trace) :
    x = Effect.cordon u.node ∨
    (c.cordon u.node = Except.ok () ∧
      x = Effect.changeNodeUpgradeState u.node UpgradeState.waitForJobsRequired) := by
  unfold processCordonOne at h
  cases hw : c.cordon u.node with
  | ok v =>
    cases v
    rw [collabCall_ok _ hw] at h
    rcases ProcRes.mem_seq_trace h with h1 | h2
    · simp at h1
      exact Or.inl h1
    · simp [collabCall] at h2
      exact Or.inr ⟨rfl, h2⟩
  | error e =>
    rw [collabCall_error _ hw] at h
    rw [ProcRes.seq_of_some _ (by rfl)] at h
    simp at h
    exact Or.inl h

/-- The WaitForJobsRequired step issues only moves of listed nodes to
`PodDeletionRequired` or a batched completion check. -/
theorem mem_waitStage_trace {c : Collaborators} {s : ClusterUpgradeState}
    {w : Option WaitForCompletionSpec} {x : Effect}
    (h : x ∈ (ProcessWaitForJobsRequiredNodes c s w).trace) :
    (∃ u ∈ s.nodeStates UpgradeState.waitForJobsRequired,
      x = Effect.changeNodeUpgradeState u.node UpgradeState.podDeletionRequired) ∨
    (∃ sel nodes, x = Effect.scheduleCheckOnPodCompletion sel nodes) := by
  unfold ProcessWaitForJobsRequiredNodes at h
  cases w with
  | none =>
    simp at h
    rcases h with ⟨u, hu, hx⟩
    exact Or.inl ⟨u, hu, hx.symm⟩
  | some ws =>
    by_cases hsel : ws.podSelector = ""
    · simp only [hsel, eq_self_iff_true, if_true] at h
      simp at h
      rcases h with ⟨u, hu, hx⟩
      exact Or.inl ⟨u, hu, hx.symm⟩
    · simp only [hsel, if_false, if_neg hsel] at h
      by_cases hnil :
          (s.nodeStates UpgradeState.waitForJobsRequired).map (fun u => u.node) = []
      · simp [hnil, ProcRes.ok] at h
      · simp [hnil, collabCall] at h
        exact Or.inr ⟨_, _, h⟩

/-- Unfolding equation for the PodDeletionRequired step. -/
theorem ProcessPodDeletionRequiredNodes_eq (c : Collaborators)
    (s : ClusterUpgradeState) (pd : Option PodDeletionSpec) :
    ProcessPodDeletionRequiredNodes c s pd =
      if (s.nodeStates UpgradeState.podDeletionRequired).map (fun u => u.node) = [] then
        ProcRes.ok
      else
        collabCall
          (Effect.schedulePodEviction pd
            ((s.nodeStates UpgradeState.podDeletionRequired).map (fun u => u.node)))
          (c.schedulePodEviction pd
            ((s.nodeStates UpgradeState.podDeletionRequired).map (fun u => u.node))) := rfl

/-- The PodDeletionRequired step issues only a batched eviction call. -/
theorem mem_podDeletionStage_trace {c : Collaborators} {s : ClusterUpgradeState}
    {pd : Option PodDeletionSpec} {x : Effect}
    (h : x ∈ (ProcessPodDeletionRequiredNodes c s pd).trace) :
    ∃ spec nodes, x = Effect.schedulePodEviction spec nodes := by
  rw [ProcessPodDeletionRequiredNodes_eq] at h
  by_cases hnil :
      (s.nodeStates UpgradeState.podDeletionRequired).map (fun u => u.node) = []
  · simp [hnil, ProcRes.ok] at h
  · simp [hnil, collabCall] at h
    exact ⟨_, _, h⟩

/-- Unfolding equation for the DrainRequired step with no drain spec. -/
theorem ProcessDrainNodes_none (c : Collaborators) (s : ClusterUpgradeState) :
    ProcessDrainNodes c s none =
      (processDrainDisabledList c (s.nodeStates UpgradeState.drainRequired), none) := rfl

/-- Unfolding equation for the DrainRequired step with a drain spec. -/
theorem ProcessDrainNodes_some (c : Collaborators) (s : ClusterUpgradeState)
    (ds : DrainSpec) :
    ProcessDrainNodes c s (some ds) =
      if ds.enable = false then
        (processDrainDisabledList c (s.nodeStates UpgradeState.drainRequired), some ds)
      else
        (collabCall
          (Effect.scheduleNodesDrain (drainAugment ds)
            ((s.nodeStates UpgradeState.drainRequired).map (fun u => u.node)))
          (c.scheduleNodesDrain (drainAugment ds)
            ((s.nodeStates UpgradeState.drainRequired).map (fun u => u.node))),
         some (drainAugment ds)) := rfl

/-- The DrainRequired step issues only: moves of listed nodes straight to
`PodRestartRequired` (drain disabled), or a batched drain call, which happens
only when the policy's drain spec is present and enabled. -/
theorem mem_drainStage_trace {c : Collaborators} {s : ClusterUpgradeState}
    {dsOpt : Option DrainSpec} {x : Effect}
    (h : x ∈ (ProcessDrainNodes c s dsOpt).1.trace) :
    (∃ u ∈ s.nodeStates UpgradeState.drainRequired,
      x = Effect.changeNodeUpgradeState u.node UpgradeState.podRestartRequired) ∨
    ((∃ spec nodes, x = Effect.scheduleNodesDrain spec nodes) ∧
      ∃ ds, dsOpt = some ds ∧ ds.enable = true) := by
  cases dsOpt with
  | none =>
    rw [ProcessDrainNodes_none] at h
    rcases mem_seqMap_trace h with ⟨u, hu, hx⟩
    simp [collabCall] at hx
    exact Or.inl ⟨u, hu, hx⟩
  | some ds =>
    rw [ProcessDrainNodes_some] at h
    by_cases hen : ds.enable = false
    · rw [if_pos hen] at h
      rcases mem_seqMap_trace h with ⟨u, hu, hx⟩
      simp [collabCall] at hx
      exact Or.inl ⟨u, hu, hx⟩
    · rw [if_neg hen] at h
      simp [collabCall] at h
      exact Or.inr ⟨⟨_, _, h⟩, ds, rfl, by simpa using hen⟩

/-- Processing one PodRestartRequired unit issues only: a move of its node to
`Done` or `UncordonRequired`, or the clearing of the preservation marker. -/
theorem mem_processPodRestartOne_trace {c : Collaborators} {u : NodeUpgradeState}
    {x : Effect} (h : x ∈ (processPodRestartOne c u).1.trace) :
    x = Effect.changeNodeUpgradeState u.node UpgradeState.done ∨
    x = Effect.changeNodeUpgradeState u.node UpgradeState.uncordonRequired ∨
    x = Effect.changeNodeUpgradeAnnot u.node GetUpgradeInitialStateAnnotationKey "null" := by
  unfold processPodRestartOne at h
  split at h
  · simp at h
  · split at h
    · split at h <;> simp [ProcRes.ok] at h
    · split at h
      · simp at h
      · split at h
        · by_cases hann : (lookupKV u.node.annotations GetUpgradeInitialStateAnnotationKey).isSome
          · simp only [hann, eq_self_iff_true, if_true] at h
            rcases ProcRes.mem_seq_trace h with h1 | h2
            · simp [collabCall] at h1
              exact Or.inl h1
            · simp [collabCall] at h2
              exact Or.inr (Or.inr h2)
          · simp only [Bool.not_eq_true] at hann
            simp only [hann, Bool.false_eq_true, if_false] at h
            rw [if_neg (by simp)] at h
            simp [collabCall] at h
            exact Or.inr (Or.inl h)
        · simp [ProcRes.ok] at h

/-- A call in the PodRestartRequired loop's trace came from some listed
unit's iteration. -/
theorem mem_processPodRestartList_trace {c : Collaborators} :
    ∀ {l : List NodeUpgradeState} {x : Effect},
    x ∈ (processPodRestartList c l).1.trace →
    ∃ u ∈ l, x ∈ (processPodRestartOne c u).1.trace := by
  intro l
  induction l with
  | nil =>
    intro x h
    simp [processPodRestartList, ProcRes.ok] at h
  | cons u rest ih =>
    intro x h
    unfold processPodRestartList at h
    cases hr : (processPodRestartOne c u).1.err with
    | some e =>
      simp only [hr] at h
      exact ⟨u, by simp, h⟩
    | none =>
      simp only [hr] at h
      rcases ProcRes.mem_seq_trace h with h1 | h2
      · exact ⟨u, by simp, h1⟩
      · rcases ih h2 with ⟨v, hv, hx⟩
        exact ⟨v, by simp [hv], hx⟩

/-- The PodRestartRequired step issues only per-node finish transitions and
marker clears for listed nodes, plus the batched restart call. -/
theorem mem_podRestartStage_trace {c : Collaborators} {s : ClusterUpgradeState}
    {x : Effect} (h : x ∈ (ProcessPodRestartNodes c s).trace) :
    (∃ u ∈ s.nodeStates UpgradeState.podRestartRequired,
      x ∈ (processPodRestartOne c u).1.trace) ∨
    (∃ pods, x = Effect.schedulePodsRestart pods) := by
  unfold ProcessPodRestartNodes at h
  cases hr : (processPodRestartList c (s.nodeStates UpgradeState.podRestartRequired)).1.err with
  | some e =>
    simp only [hr] at h
    exact Or.inl (mem_processPodRestartList_trace h)
  | none =>
    simp only [hr] at h
    rcases ProcRes.mem_seq_trace h with h1 | h2
    · exact Or.inl (mem_processPodRestartList_trace h1)
    · simp [collabCall] at h2
      exact Or.inr ⟨_, h2⟩

/-- Processing one Failed unit issues only: a move of its node to `Done` or
`UncordonRequired`, or the clearing of the preservation marker. -/
theorem mem_processUpgradeFailedOne_trace {c : Collaborators} {u : NodeUpgradeState}
    {x : Effect} (h : x ∈ (processUpgradeFailedOne c u).trace) :
    x = Effect.changeNodeUpgradeState u.node UpgradeState.done ∨
    x = Effect.changeNodeUpgradeState u.node UpgradeState.uncordonRequired ∨
    x = Effect.changeNodeUpgradeAnnot u.node GetUpgradeInitialStateAnnotationKey "null" := by
  unfold processUpgradeFailedOne at h
  split at h
  · simp at h
  · split at h
    · by_cases hann : (lookupKV u.node.annotations GetUpgradeInitialStateAnnotationKey).isSome
      · simp only [hann, eq_self_iff_true, if_true] at h
        rcases ProcRes.mem_seq_trace h with h1 | h2
        · simp [collabCall] at h1
          exact Or.inl h1
        · simp [collabCall] at h2
          exact Or.inr (Or.inr h2)
      · simp only [Bool.not_eq_true] at hann
        simp only [hann, Bool.false_eq_true, if_false] at h
        rw [if_neg (by simp)] at h
        simp [collabCall] at h
        exact Or.inr (Or.inl h)
    · simp [ProcRes.ok] at h

/-- Processing one UncordonRequired unit issues only the uncordon call and
the move to `Done`. -/
theorem mem_processUncordonOne_trace {c : Collaborators} {u : NodeUpgradeState}
    {x : Effect} (h : x ∈ (processUncordonOne c u).trace) :
    x = Effect.uncordon u.node ∨
    x = Effect.changeNodeUpgradeState u.node UpgradeState.done := by
  unfold processUncordonOne at h
  rcases ProcRes.mem_seq_trace h with h1 | h2
  · simp [collabCall] at h1
    exact Or.inl h1
  · simp [collabCall] at h2
    exact Or.inr h2

/-- With auto-upgrade disabled (or the policy absent or the snapshot absent),
`ApplyState` issues no calls. -/
theorem applyState_disabled (c : Collaborators) (s : ClusterUpgradeState)
    (p : DriverUpgradePolicySpec) (h : p.autoUpgrade = false) :
    ApplyState c (some s) (some p) = ⟨[], none, some p⟩ := by
  simp [ApplyState, h]

/-- Any call `ApplyState` issues comes from one of the ten phase processing
steps. -/
theorem mem_applyState_trace {c : Collaborators} {s : ClusterUpgradeState}
    {p : DriverUpgradePolicySpec} {x : Effect}
    (h : x ∈ (ApplyState c (some s) (some p)).trace) :
    ∃ r ∈ stageList c s p, x ∈ r.trace := by
  by_cases hauto : p.autoUpgrade = true
  · rw [(applyStateRun c s p hauto).1] at h
    exact mem_traceUntilErr h
  · rw [applyState_disabled c s p (by simpa using hauto)] at h
    simp at h

/-- Any uncordon call `ApplyState` issues is for a node listed in the
snapshot's `UncordonRequired` phase. -/
theorem uncordon_origin {c : Collaborators} {s : ClusterUpgradeState}
    {p : DriverUpgradePolicySpec} {n : Node}
    (h : Effect.uncordon n ∈ (ApplyState c (some s) (some p)).trace) :
    ∃ u ∈ s.nodeStates UpgradeState.uncordonRequired, u.node = n := by
  rcases mem_applyState_trace h with ⟨r, hr, hx⟩
  simp only [stageList, List.mem_cons, List.not_mem_nil, or_false] at hr
  rcases hr with rfl | rfl | rfl | rfl | rfl | rfl | rfl | rfl | rfl | rfl
  · rcases mem_seqMap_trace hx with ⟨u, _, hxx⟩
    rcases mem_processDoneOrUnknownOne_trace hxx with h1 | h1 | h1 <;> simp at h1
  · rcases mem_seqMap_trace hx with ⟨u, _, hxx⟩
    rcases mem_processDoneOrUnknownOne_trace hxx with h1 | h1 | h1 <;> simp at h1
  · rcases mem_processUpgradeRequiredList_trace hx with ⟨u, _, _, h1⟩
    simp at h1
  · rcases mem_seqMap_trace hx with ⟨u, _, hxx⟩
    rcases mem_processCordonOne_trace hxx with h1 | ⟨_, h1⟩ <;> simp at h1
  · rcases mem_waitStage_trace hx with ⟨u, _, h1⟩ | ⟨_, _, h1⟩ <;> simp at h1
  · rcases mem_podDeletionStage_trace hx with ⟨_, _, h1⟩
    simp at h1
  · rcases mem_drainStage_trace hx with ⟨u, _, h1⟩ | ⟨⟨_, _, h1⟩, _⟩ <;> simp at h1
  · rcases mem_podRestartStage_trace hx with ⟨u, _, hxx⟩ | ⟨_, h1⟩
    · rcases mem_processPodRestartOne_trace hxx with h1 | h1 | h1 <;> simp at h1
    · simp at h1
  · rcases mem_seqMap_trace hx with ⟨u, _, hxx⟩
    rcases mem_processUpgradeFailedOne_trace hxx with h1 | h1 | h1 <;> simp at h1
  · rcases mem_seqMap_trace hx with ⟨u, hu, hxx⟩
    rcases mem_processUncordonOne_trace hxx with h1 | h1
    · injection h1 with hn
      exact ⟨u, hu, hn.symm⟩
    · simp at h1

/-- Any drain call `ApplyState` issues requires the policy's drain spec to be
present and enabled. -/
theorem drain_origin {c : Collaborators} {s : ClusterUpgradeState}
    {p : DriverUpgradePolicySpec} {spec : DrainSpec} {nodes : List Node}
    (h : Effect.scheduleNodesDrain spec nodes ∈ (ApplyState c (some s) (some p)).trace) :
    ∃ ds, p.drainSpec = some ds ∧ ds.enable = true := by
  rcases mem_applyState_trace h with ⟨r, hr, hx⟩
  simp only [stageList, List.mem_cons, List.not_mem_nil, or_false] at hr
  rcases hr with rfl | rfl | rfl | rfl | rfl | rfl | rfl | rfl | rfl | rfl
  · rcases mem_seqMap_trace hx with ⟨u, _, hxx⟩
    rcases mem_processDoneOrUnknownOne_trace hxx with h1 | h1 | h1 <;> simp at h1
  · rcases mem_seqMap_trace hx with ⟨u, _, hxx⟩
    rcases mem_processDoneOrUnknownOne_trace hxx with h1 | h1 | h1 <;> simp at h1
  · rcases mem_processUpgradeRequiredList_trace hx with ⟨u, _, _, h1⟩
    simp at h1
  · rcases mem_seqMap_trace hx with ⟨u, _, hxx⟩
    rcases mem_processCordonOne_trace hxx with h1 | ⟨_, h1⟩ <;> simp at h1
  · rcases mem_waitStage_trace hx with ⟨u, _, h1⟩ | ⟨_, _, h1⟩ <;> simp at h1
  · rcases mem_podDeletionStage_trace hx with ⟨_, _, h1⟩
    simp at h1
  · rcases mem_drainStage_trace hx with ⟨u, _, h1⟩ | ⟨_, hds⟩
    · simp at h1
    · exact hds
  · rcases mem_podRestartStage_trace hx with ⟨u, _, hxx⟩ | ⟨_, h1⟩
    · rcases mem_processPodRestartOne_trace hxx with h1 | h1 | h1 <;> simp at h1
    · simp at h1
  · rcases mem_seqMap_trace hx with ⟨u, _, hxx⟩
    rcases mem_processUpgradeFailedOne_trace hxx with h1 | h1 | h1 <;> simp at h1
  · rcases mem_seqMap_trace hx with ⟨u, _, hxx⟩
    rcases mem_processUncordonOne_trace hxx with h1 | h1 <;> simp at h1

/-- Any state write `ApplyState` issues is for a node listed in the snapshot,
and can moreover come from the UpgradeRequired step only for a node without
the skip label, and from the CordonRequired step only after a successful
cordon call for that node. -/
theorem write_origin {c : Collaborators} {s : ClusterUpgradeState}
    {p : DriverUpgradePolicySpec} {n : Node} {st : UpgradeState}
    (h : Effect.changeNodeUpgradeState n st ∈ (ApplyState c (some s) (some p)).trace) :
    (∃ u ∈ s.nodeStates UpgradeState.unknown, u.node = n) ∨
    (∃ u ∈ s.nodeStates UpgradeState.done, u.node = n) ∨
    (∃ u ∈ s.nodeStates UpgradeState.upgradeRequired,
      u.node = n ∧ skipNodeUpgrade u.node = false) ∨
    (∃ u ∈ s.nodeStates UpgradeState.cordonRequired,
      u.node = n ∧ c.cordon u.node = Except.ok ()) ∨
    (∃ u ∈ s.nodeStates UpgradeState.waitForJobsRequired, u.node = n) ∨
    (∃ u ∈ s.nodeStates UpgradeState.drainRequired, u.node = n) ∨
    (∃ u ∈ s.nodeStates UpgradeState.podRestartRequired, u.node = n) ∨
    (∃ u ∈ s.nodeStates UpgradeState.failed, u.node = n) ∨
    (∃ u ∈ s.nodeStates UpgradeState.uncordonRequired, u.node = n) := by
  rcases mem_applyState_trace h with ⟨r, hr, hx⟩
  simp only [stageList, List.mem_cons, List.not_mem_nil, or_false] at hr
  rcases hr with rfl | rfl | rfl | rfl | rfl | rfl | rfl | rfl | rfl | rfl
  · rcases mem_seqMap_trace hx with ⟨u, hu, hxx⟩
    rcases mem_processDoneOrUnknownOne_trace hxx with h1 | h1 | h1
    · simp at h1
    · injection h1 with hn _
      exact Or.inl ⟨u, hu, hn.symm⟩
    · injection h1 with hn _
      exact Or.inl ⟨u, hu, hn.symm⟩
  · rcases mem_seqMap_trace hx with ⟨u, hu, hxx⟩
    rcases mem_processDoneOrUnknownOne_trace hxx with h1 | h1 | h1
    · simp at h1
    · injection h1 with hn _
      exact Or.inr (Or.inl ⟨u, hu, hn.symm⟩)
    · injection h1 with hn _
      exact Or.inr (Or.inl ⟨u, hu, hn.symm⟩)
  · rcases mem_processUpgradeRequiredList_trace hx with ⟨u, hu, hskip, h1⟩
    injection h1 with hn _
    exact Or.inr (Or.inr (Or.inl ⟨u, hu, hn.symm, hskip⟩))
  · rcases mem_seqMap_trace hx with ⟨u, hu, hxx⟩
    rcases mem_processCordonOne_trace hxx with h1 | ⟨hok, h1⟩
    · simp at h1
    · injection h1 with hn _
      exact Or.inr (Or.inr (Or.inr (Or.inl ⟨u, hu, hn.symm, hok⟩)))
  · rcases mem_waitStage_trace hx with ⟨u, hu, h1⟩ | ⟨_, _, h1⟩
    · injection h1 with hn _
      exact Or.inr (Or.inr (Or.inr (Or.inr (Or.inl ⟨u, hu, hn.symm⟩))))
    · simp at h1
  · rcases mem_podDeletionStage_trace hx with ⟨_, _, h1⟩
    simp at h1
  · rcases mem_drainStage_trace hx with ⟨u, hu, h1⟩ | ⟨⟨_, _, h1⟩, _⟩
    · injection h1 with hn _
      exact Or.inr (Or.inr (Or.inr (Or.inr (Or.inr (Or.inl ⟨u, hu, hn.symm⟩)))))
    · simp at h1
  · rcases mem_podRestartStage_trace hx with ⟨u, hu, hxx⟩ | ⟨_, h1⟩
    · rcases mem_processPodRestartOne_trace hxx with h1 | h1 | h1
      · injection h1 with hn _
        exact Or.inr (Or.inr (Or.inr (Or.inr (Or.inr (Or.inr (Or.inl ⟨u, hu, hn.symm⟩))))))
      · injection h1 with hn _
        exact Or.inr (Or.inr (Or.inr (Or.inr (Or.inr (Or.inr (Or.inl ⟨u, hu, hn.symm⟩))))))
      · simp at h1
    · simp at h1
  · rcases mem_seqMap_trace hx with ⟨u, hu, hxx⟩
    rcases mem_processUpgradeFailedOne_trace hxx with h1 | h1 | h1
    · injection h1 with hn _
      exact Or.inr (Or.inr (Or.inr (Or.inr (Or.inr (Or.inr (Or.inr (Or.inl ⟨u, hu, hn.symm⟩)))))))
    · injection h1 with hn _
      exact Or.inr (Or.inr (Or.inr (Or.inr (Or.inr (Or.inr (Or.inr (Or.inl ⟨u, hu, hn.symm⟩)))))))
    · simp at h1
  · rcases mem_seqMap_trace hx with ⟨u, hu, hxx⟩
    rcases mem_processUncordonOne_trace hxx with h1 | h1
    · simp at h1
    · injection h1 with hn _
      exact Or.inr (Or.inr (Or.inr (Or.inr (Or.inr (Or.inr (Or.inr (Or.inr ⟨u, hu, hn.symm⟩)))))))

/-! ### Counting the upgrade-starting writes -/

/-- Stop-at-first-error never issues more matching calls than the steps would
in isolation. -/
theorem countP_traceUntilErr_le (pb : Effect → Bool) (l : List ProcRes) :
    (traceUntilErr l).countP pb ≤ (l.map (fun r => r.trace.countP pb)).sum := by
  induction l with
  | nil => simp [traceUntilErr]
  | cons r rest ih =>
    cases hr : r.err with
    | some e =>
      simp only [traceUntilErr, hr, List.map_cons, List.sum_cons]
      exact Nat.le_add_right _ _
    | none =>
      simp only [traceUntilErr, hr, List.map_cons, List.sum_cons, List.countP_append]
      exact Nat.add_le_add_left ih _

/-- The Unknown/Done steps issue no move to `CordonRequired`. -/
theorem moves_zero_doneOrUnknown (c : Collaborators) (s : ClusterUpgradeState)
    (st : UpgradeState) :
    (ProcessDoneOrUnknownNodes c s st).trace.countP Effect.isMoveToCordon = 0 := by
  rw [List.countP_eq_zero]
  intro a ha
  rcases mem_seqMap_trace ha with ⟨u, _, hx⟩
  rcases mem_processDoneOrUnknownOne_trace hx with h1 | h1 | h1 <;>
    simp [h1, Effect.isMoveToCordon]

/-- The CordonRequired step issues no move to `CordonRequired`. -/
theorem moves_zero_cordonStage (c : Collaborators) (s : ClusterUpgradeState) :
    (ProcessCordonRequiredNodes c s).trace.countP Effect.isMoveToCordon = 0 := by
  rw [List.countP_eq_zero]
  intro a ha
  rcases mem_seqMap_trace ha with ⟨u, _, hx⟩
  rcases mem_processCordonOne_trace hx with h1 | ⟨_, h1⟩ <;>
    simp [h1, Effect.isMoveToCordon]

/-- The WaitForJobsRequired step issues no move to `CordonRequired`. -/
theorem moves_zero_waitStage (c : Collaborators) (s : ClusterUpgradeState)
    (w : Option WaitForCompletionSpec) :
    (ProcessWaitForJobsRequiredNodes c s w).trace.countP Effect.isMoveToCordon = 0 := by
  rw [List.countP_eq_zero]
  intro a ha
  rcases mem_waitStage_trace ha with ⟨u, _, h1⟩ | ⟨_, _, h1⟩ <;>
    simp [h1, Effect.isMoveToCordon]

/-- The PodDeletionRequired step issues no move to `CordonRequired`. -/
theorem moves_zero_podDeletionStage (c : Collaborators) (s : ClusterUpgradeState)
    (pd : Option PodDeletionSpec) :
    (ProcessPodDeletionRequiredNodes c s pd).trace.countP Effect.isMoveToCordon = 0 := by
  rw [List.countP_eq_zero]
  intro a ha
  rcases mem_podDeletionStage_trace ha with ⟨_, _, h1⟩
  simp [h1, Effect.isMoveToCordon]

/-- The DrainRequired step issues no move to `CordonRequired`. -/
theorem moves_zero_drainStage (c : Collaborators) (s : ClusterUpgradeState)
    (dsOpt : Option DrainSpec) :
    (ProcessDrainNodes c s dsOpt).1.trace.countP Effect.isMoveToCordon = 0 := by
  rw [List.countP_eq_zero]
  intro a ha
  rcases mem_drainStage_trace ha with ⟨u, _, h1⟩ | ⟨⟨_, _, h1⟩, _⟩ <;>
    simp [h1, Effect.isMoveToCordon]

/-- The PodRestartRequired step issues no move to `CordonRequired`. -/
theorem moves_zero_podRestartStage (c : Collaborators) (s : ClusterUpgradeState) :
    (ProcessPodRestartNodes c s).trace.countP Effect.isMoveToCordon = 0 := by
  rw [List.countP_eq_zero]
  intro a ha
  rcases mem_podRestartStage_trace ha with ⟨u, _, hx⟩ | ⟨_, h1⟩
  · rcases mem_processPodRestartOne_trace hx with h1 | h1 | h1 <;>
      simp [h1, Effect.isMoveToCordon]
  · simp [h1, Effect.isMoveToCordon]

/-- The Failed step issues no move to `CordonRequired`. -/
theorem moves_zero_failedStage (c : Collaborators) (s : ClusterUpgradeState) :
    (ProcessUpgradeFailedNodes c s).trace.countP Effect.isMoveToCordon = 0 := by
  rw [List.countP_eq_zero]
  intro a ha
  rcases mem_seqMap_trace ha with ⟨u, _, hx⟩
  rcases mem_processUpgradeFailedOne_trace hx with h1 | h1 | h1 <;>
    simp [h1, Effect.isMoveToCordon]

/-- The UncordonRequired step issues no move to `CordonRequired`. -/
theorem moves_zero_uncordonStage (c : Collaborators) (s : ClusterUpgradeState) :
    (ProcessUncordonRequiredNodes c s).trace.countP Effect.isMoveToCordon = 0 := by
  rw [List.countP_eq_zero]
  intro a ha
  rcases mem_seqMap_trace ha with ⟨u, _, hx⟩
  rcases mem_processUncordonOne_trace hx with h1 | h1 <;>
    simp [h1, Effect.isMoveToCordon]

/-- The UpgradeRequired loop issues at most `limit` calls in total. -/
theorem processUpgradeRequiredList_length_le (c : Collaborators) :
    ∀ (limit : Int) (l : List NodeUpgradeState),
    (processUpgradeRequiredList c limit l).trace.length ≤ limit.toNat := by
  intro limit l
  induction l generalizing limit with
  | nil => simp [processUpgradeRequiredList, ProcRes.ok]
  | cons u rest ih =>
    unfold processUpgradeRequiredList
    by_cases h0 : limit ≤ 0
    · simp [h0, ProcRes.ok]
    · rw [if_neg h0]
      by_cases hskip : skipNodeUpgrade u.node
      · rw [if_pos hskip]
        exact ih limit
      · rw [if_neg hskip]
        cases hw : c.changeNodeUpgradeState u.node UpgradeState.cordonRequired with
        | ok v =>
          rw [ProcRes.seq_of_none _ (by rfl)]
          have hr := ih (limit - 1)
          simp only [List.length_append, List.length_cons, List.length_nil]
          omega
        | error e =>
          simp only [List.length_cons, List.length_nil]
          omega

/-- With enough slots and a state provider that accepts the writes, every
listed node without the skip label is moved to `CordonRequired`. -/
theorem processUpgradeRequiredList_all_moved (c : Collaborators) :
    ∀ (limit : Int) (l : List NodeUpgradeState),
    (l.length : Int) ≤ limit →
    (∀ u ∈ l, c.changeNodeUpgradeState u.node UpgradeState.cordonRequired = Except.ok ()) →
    ∀ u ∈ l, skipNodeUpgrade u.node = false →
      Effect.changeNodeUpgradeState u.node UpgradeState.cordonRequired ∈
        (processUpgradeRequiredList c limit l).trace := by
  intro limit l
  induction l generalizing limit with
  | nil =>
    intro _ _ u hu
    simp at hu
  | cons v rest ih =>
    intro hlen hok u hu hskip
    have h0 : ¬limit ≤ 0 := by
      simp only [List.length_cons] at hlen
      omega
    unfold processUpgradeRequiredList
    rw [if_neg h0]
    rcases List.mem_cons.mp hu with rfl | hur
    · rw [if_neg (by simp [hskip])]
      rw [hok u (by simp), ProcRes.seq_of_none _ (by rfl)]
      simp
    · by_cases hsv : skipNodeUpgrade v.node
      · rw [if_pos hsv]
        refine ih limit ?_ (fun w hw => hok w (by simp [hw])) u hur hskip
        simp only [List.length_cons] at hlen
        omega
      · rw [if_neg hsv]
        rw [hok v (by simp), ProcRes.seq_of_none _ (by rfl)]
        have := ih (limit - 1) ?_ (fun w hw => hok w (by simp [hw])) u hur hskip
        · simp [this]
        · simp only [List.length_cons] at hlen
          omega

/-! ### Miscellaneous helpers -/

/-- `isNodeUnschedulable` just reads the unschedulable flag. -/
theorem isNodeUnschedulable_eq (n : Node) : isNodeUnschedulable n = n.unschedulable := by
  unfold isNodeUnschedulable
  cases n.unschedulable <;> simp

/-- With no slots left the UpgradeRequired loop does nothing. -/
theorem processUpgradeRequiredList_nonpos (c : Collaborators) {limit : Int}
    (h : limit ≤ 0) (l : List NodeUpgradeState) :
    processUpgradeRequiredList c limit l = ProcRes.ok := by
  cases l with
  | nil => rfl
  | cons u rest =>
    unfold processUpgradeRequiredList
    rw [if_pos h]

/-- Unfolding equation for the UpgradeRequired loop on a nonempty list. -/
theorem processUpgradeRequiredList_cons (c : Collaborators) (limit : Int)
    (u : NodeUpgradeState) (rest : List NodeUpgradeState) :
    processUpgradeRequiredList c limit (u :: rest) =
      if limit ≤ 0 then ProcRes.ok
      else if skipNodeUpgrade u.node then processUpgradeRequiredList c limit rest
      else
        match c.changeNodeUpgradeState u.node UpgradeState.cordonRequired with
        | Except.ok _ =>
          ProcRes.seq ⟨[Effect.changeNodeUpgradeState u.node UpgradeState.cordonRequired], none⟩
            (processUpgradeRequiredList c (limit - 1) rest)
        | Except.error e =>
          ⟨[Effect.changeNodeUpgradeState u.node UpgradeState.cordonRequired], some e⟩ := by
  conv_lhs => unfold processUpgradeRequiredList

/-- The exclusion term is not the empty selector. -/
theorem skipDrainPodSelector_ne : skipDrainPodSelector ≠ "" := by decide

/-- The selector left behind by an enabled drain pass is never empty. -/
theorem drainAugment_selector_ne (ds : DrainSpec) : (drainAugment ds).podSelector ≠ "" := by
  unfold drainAugment
  by_cases h : ds.podSelector = ""
  · simpa [h] using skipDrainPodSelector_ne
  · simp only [h, if_false, if_neg h]
    intro hc
    have hlen := congrArg String.length hc
    rw [String.length_append, String.length_append] at hlen
    have h1 : ("," : String).length = 1 := rfl
    have h0 : ("" : String).length = 0 := rfl
    omega

/-! ### C8 — input gates of `ApplyState` -/

/-- C8: `ApplyState` returns the invalid-input error having issued no call
when the snapshot is null; it returns success as a complete no-op (no calls)
when the policy is null or `AutoUpgrade` is false. -/
theorem c8_applyState_gates :
    (∀ (c : Collaborators) (pol : Option DriverUpgradePolicySpec),
      ApplyState c none pol = ⟨[], some "currentState should not be empty", pol⟩) ∧
    (∀ (c : Collaborators) (s : ClusterUpgradeState),
      ApplyState c (some s) none = ⟨[], none, none⟩) ∧
    (∀ (c : Collaborators) (s : ClusterUpgradeState) (p : DriverUpgradePolicySpec),
      p.autoUpgrade = false → ApplyState c (some s) (some p) = ⟨[], none, some p⟩) :=
  ⟨fun _ _ => rfl, fun _ _ => rfl, fun c s p h => applyState_disabled c s p h⟩

/-- Witness for C8 at concrete inputs. -/
theorem c8_applyState_gates_witness :
    ApplyState collabOK none (some policyTwo) =
      ⟨[], some "currentState should not be empty", some policyTwo⟩ ∧
    ApplyState collabOK (some snapEmpty) none = ⟨[], none, none⟩ ∧
    (policyOff.autoUpgrade = false ∧
      ApplyState collabOK (some snapEmpty) (some policyOff) = ⟨[], none, some policyOff⟩) :=
  ⟨c8_applyState_gates.1 collabOK (some policyTwo),
   c8_applyState_gates.2.1 collabOK snapEmpty,
   rfl, c8_applyState_gates.2.2 collabOK snapEmpty policyOff rfl⟩

/-! ### C2 — processor order, first error, no rollback -/

/-- C2: with an enabled policy, `ApplyState` is exactly the ten phase
processors run in the order Unknown, Done, UpgradeRequired, CordonRequired,
WaitForJobsRequired, PodDeletionRequired, DrainRequired, PodRestartRequired,
Failed, UncordonRequired: its trace keeps every call issued up to and
including the first failing processor (nothing is rolled back, later
processors never run), and its error is the first error produced. -/
theorem c2_processor_order (c : Collaborators) (s : ClusterUpgradeState)
    (p : DriverUpgradePolicySpec) (hauto : p.autoUpgrade = true) :
    (ApplyState c (some s) (some p)).trace = traceUntilErr (stageList c s p) ∧
    (ApplyState c (some s) (some p)).err = firstErr (stageList c s p) :=
  applyStateRun c s p hauto

/-- Witness for C2 on a concrete snapshot with a node needing upgrade. -/
theorem c2_processor_order_witness :
    policyTwo.autoUpgrade = true ∧
    ((ApplyState collabOK (some (snapOne UpgradeState.upgradeRequired [unitOld]))
        (some policyTwo)).trace =
      traceUntilErr (stageList collabOK (snapOne UpgradeState.upgradeRequired [unitOld]) policyTwo) ∧
     (ApplyState collabOK (some (snapOne UpgradeState.upgradeRequired [unitOld]))
        (some policyTwo)).err =
      firstErr (stageList collabOK (snapOne UpgradeState.upgradeRequired [unitOld]) policyTwo)) :=
  ⟨rfl, c2_processor_order collabOK (snapOne UpgradeState.upgradeRequired [unitOld]) policyTwo rfl⟩

/-! ### C5 — the in-sync judgement -/

/-- C5 counterexample: a pod at the matching generation, in phase `Running`,
with an empty container-status list satisfies the claim's condition ("every
reported container is ready" holds vacuously) yet `isDriverPodInSync` judges
it not in sync, because the code additionally requires at least one reported
container. -/
theorem c5_inSync_counterexample :
    ¬(isDriverPodInSync unitNoContainers = Except.ok true ↔
      inSyncClaimCheck unitNoContainers = true) := by
  decide

/-- C5 amended: the driver pod is judged in-sync exactly when the pod
template generation is readable and equals the daemonset generation, the
pod's phase is `Running`, at least one container status is reported, and
every reported container is ready. -/
theorem c5_inSync_amended (u : NodeUpgradeState) :
    isDriverPodInSync u = Except.ok true ↔
      (inSyncClaimCheck u = true ∧ u.driverPod.containerStatuses ≠ []) := by
  unfold isDriverPodInSync inSyncClaimCheck
  cases hg : GetPodTemplateGeneration u.driverPod with
  | error e => simp
  | ok g =>
    dsimp only
    by_cases hcond : g = u.driverDaemonSet.generation ∧
        u.driverPod.statusPhase = "Running" ∧ u.driverPod.containerStatuses ≠ []
    · rw [if_pos hcond]
      rcases hcond with ⟨h1, h2, h3⟩
      simp [h1, h2, h3]
    · rw [if_neg hcond]
      constructor
      · intro hfalse
        exact absurd hfalse (by simp)
      · rintro ⟨hchk, hne⟩
        exfalso
        apply hcond
        simp only [Bool.and_eq_true, beq_iff_eq] at hchk
        exact ⟨hchk.1.1, hchk.1.2, hne⟩

/-! ### C9 — drain disabled -/

/-- C9: when the policy's drain spec is absent or disabled, the drain manager
is never called during the pass, and (provided the pass reaches the drain
step and the state provider accepts the writes) every `DrainRequired` node is
moved straight to `PodRestartRequired`. -/
theorem c9_drain_disabled (c : Collaborators) (s : ClusterUpgradeState)
    (p : DriverUpgradePolicySpec) (hauto : p.autoUpgrade = true)
    (hdis : p.drainSpec = none ∨ ∃ ds, p.drainSpec = some ds ∧ ds.enable = false) :
    (∀ spec nodes,
      Effect.scheduleNodesDrain spec nodes ∉ (ApplyState c (some s) (some p)).trace) ∧
    ((ProcessDoneOrUnknownNodes c s UpgradeState.unknown).err = none →
     (ProcessDoneOrUnknownNodes c s UpgradeState.done).err = none →
     (ProcessUpgradeRequiredNodes c s (upgradesAvailable s p)).err = none →
     (ProcessCordonRequiredNodes c s).err = none →
     (ProcessWaitForJobsRequiredNodes c s p.waitForCompletion).err = none →
     (ProcessPodDeletionRequiredNodes c s p.podDeletion).err = none →
     (∀ u ∈ s.nodeStates UpgradeState.drainRequired,
       c.changeNodeUpgradeState u.node UpgradeState.podRestartRequired = Except.ok ()) →
     ∀ u ∈ s.nodeStates UpgradeState.drainRequired,
       Effect.changeNodeUpgradeState u.node UpgradeState.podRestartRequired ∈
         (ApplyState c (some s) (some p)).trace) := by
  constructor
  · intro spec nodes hmem
    rcases drain_origin hmem with ⟨ds, hds, hen⟩
    rcases hdis with hnone | ⟨ds2, hds2, hen2⟩
    · rw [hnone] at hds
      simp at hds
    · rw [hds2] at hds
      injection hds with hdd
      rw [hdd] at hen2
      rw [hen2] at hen
      simp at hen
  · intro h1 h2 h3 h4 h5 h6 hw u hu
    have hstage : (ProcessDrainNodes c s p.drainSpec).1 =
        processDrainDisabledList c (s.nodeStates UpgradeState.drainRequired) := by
      rcases hdis with hnone | ⟨ds, hds, hen⟩
      · rw [hnone, ProcessDrainNodes_none]
      · rw [hds, ProcessDrainNodes_some, if_pos hen]
    have heff : Effect.changeNodeUpgradeState u.node UpgradeState.podRestartRequired ∈
        (ProcessDrainNodes c s p.drainSpec).1.trace := by
      rw [hstage]
      unfold processDrainDisabledList
      have hall : ∀ v ∈ s.nodeStates UpgradeState.drainRequired,
          ((fun w => collabCall
              (Effect.changeNodeUpgradeState w.node UpgradeState.podRestartRequired)
              (c.changeNodeUpgradeState w.node UpgradeState.podRestartRequired)) v).err
            = none := by
        intro v hv
        simp [collabCall, hw v hv]
      rw [seqMap_trace_of_all_ok hall]
      refine List.mem_flatten.mpr
        ⟨[Effect.changeNodeUpgradeState u.node UpgradeState.podRestartRequired], ?_, by simp⟩
      simp only [List.mem_map]
      exact ⟨u, hu, rfl⟩
    rw [(applyStateRun c s p hauto).1]
    have hfirst : firstErr
        [ProcessDoneOrUnknownNodes c s UpgradeState.unknown,
         ProcessDoneOrUnknownNodes c s UpgradeState.done,
         ProcessUpgradeRequiredNodes c s (upgradesAvailable s p),
         ProcessCordonRequiredNodes c s,
         ProcessWaitForJobsRequiredNodes c s p.waitForCompletion,
         ProcessPodDeletionRequiredNodes c s p.podDeletion] = none := by
      simp [firstErr, h1, h2, h3, h4, h5, h6]
    have hshape : stageList c s p =
        [ProcessDoneOrUnknownNodes c s UpgradeState.unknown,
         ProcessDoneOrUnknownNodes c s UpgradeState.done,
         ProcessUpgradeRequiredNodes c s (upgradesAvailable s p),
         ProcessCordonRequiredNodes c s,
         ProcessWaitForJobsRequiredNodes c s p.waitForCompletion,
         ProcessPodDeletionRequiredNodes c s p.podDeletion] ++
        (ProcessDrainNodes c s p.drainSpec).1 ::
        [ProcessPodRestartNodes c s, ProcessUpgradeFailedNodes c s,
         ProcessUncordonRequiredNodes c s] := rfl
    rw [hshape]
    exact mem_traceUntilErr_of_stage _ hfirst heff

/-- Witness for C9: with drain unset in the policy, the single
`DrainRequired` node is moved to `PodRestartRequired` and no drain call is
issued. -/
theorem c9_drain_disabled_witness :
    Effect.scheduleNodesDrain drainOff [] ∉
      (ApplyState collabOK (some (snapOne UpgradeState.drainRequired [unitOld]))
        (some policyTwo)).trace ∧
    Effect.changeNodeUpgradeState nodeA UpgradeState.podRestartRequired ∈
      (ApplyState collabOK (some (snapOne UpgradeState.drainRequired [unitOld]))
        (some policyTwo)).trace := by
  constructor
  · exact (c9_drain_disabled collabOK (snapOne UpgradeState.drainRequired [unitOld])
      policyTwo rfl (Or.inl rfl)).1 drainOff []
  · exact (c9_drain_disabled collabOK (snapOne UpgradeState.drainRequired [unitOld])
      policyTwo rfl (Or.inl rfl)).2 rfl rfl rfl rfl rfl rfl (fun _ _ => rfl)
      unitOld (by decide)

/-! ### C10 — in-place mutation of the drain spec's pod selector -/

/-- An enabled pass keeps the drain spec enabled. -/
theorem drainSpecIter_enable (c : Collaborators) (s : ClusterUpgradeState)
    {ds : DrainSpec} (hen : ds.enable = true) (n : Nat) :
    (drainSpecIter c s ds n).enable = true := by
  induction n with
  | zero => exact hen
  | succ n ih =>
    unfold drainSpecIter
    rw [ProcessDrainNodes_some, if_neg (by simp [ih])]
    simpa [drainAugment] using ih

/-- Each enabled pass leaves the augmented spec in the policy object. -/
theorem drainSpecIter_succ (c : Collaborators) (s : ClusterUpgradeState)
    {ds : DrainSpec} (hen : ds.enable = true) (n : Nat) :
    drainSpecIter c s ds (n + 1) = drainAugment (drainSpecIter c s ds n) := by
  simp only [drainSpecIter]
  rw [ProcessDrainNodes_some, if_neg (by simp [drainSpecIter_enable c s hen n])]

/-- C10: with drain enabled, `ProcessDrainNodes` overwrites the policy
object's `PodSelector` in place — appending the skip-drain exclusion term, or
installing it as the whole selector when the selector was empty — and hands
exactly the overwritten spec to the drain manager; invoking the pass again
with the same policy object therefore appends one more copy of the exclusion
term each time. -/
theorem c10_drain_selector_mutation (c : Collaborators) (s : ClusterUpgradeState)
    (ds : DrainSpec) (hen : ds.enable = true) :
    ((ProcessDrainNodes c s (some ds)).2 = some (drainAugment ds) ∧
     (drainAugment ds).podSelector =
       (if ds.podSelector = "" then skipDrainPodSelector
        else ds.podSelector ++ "," ++ skipDrainPodSelector) ∧
     Effect.scheduleNodesDrain (drainAugment ds)
        ((s.nodeStates UpgradeState.drainRequired).map (fun u => u.node)) ∈
       (ProcessDrainNodes c s (some ds)).1.trace) ∧
    (∀ n : Nat,
      Effect.scheduleNodesDrain (drainSpecIter c s ds (n + 1))
          ((s.nodeStates UpgradeState.drainRequired).map (fun u => u.node)) ∈
        (ProcessDrainNodes c s (some (drainSpecIter c s ds n))).1.trace) ∧
    (∀ n : Nat, 1 ≤ n →
      (drainSpecIter c s ds (n + 1)).podSelector =
        (drainSpecIter c s ds n).podSelector ++ "," ++ skipDrainPodSelector) := by
  refine ⟨⟨?_, rfl, ?_⟩, ?_, ?_⟩
  · rw [ProcessDrainNodes_some, if_neg (by simp [hen])]
  · rw [ProcessDrainNodes_some, if_neg (by simp [hen])]
    simp [collabCall]
  · intro n
    rw [ProcessDrainNodes_some,
      if_neg (by simp [drainSpecIter_enable c s hen n]),
      drainSpecIter_succ c s hen n]
    simp [collabCall]
  · intro n hn
    rw [drainSpecIter_succ c s hen n]
    have hne : (drainSpecIter c s ds n).podSelector ≠ "" := by
      rcases n with _ | m
      · omega
      · rw [drainSpecIter_succ c s hen m]
        exact drainAugment_selector_ne _
    unfold drainAugment
    rw [if_neg hne]

/-- Witness for C10: two enabled passes against the same policy object leave
two copies of the exclusion term in the selector. -/
theorem c10_drain_selector_mutation_witness :
    drainOn.enable = true ∧
    (drainSpecIter collabOK (snapOne UpgradeState.drainRequired [unitOld]) drainOn 2).podSelector =
      (drainSpecIter collabOK (snapOne UpgradeState.drainRequired [unitOld]) drainOn 1).podSelector
        ++ "," ++ skipDrainPodSelector :=
  ⟨rfl,
   (c10_drain_selector_mutation collabOK (snapOne UpgradeState.drainRequired [unitOld])
      drainOn rfl).2.2 1 (by decide)⟩

/-! ### C6 — the skip-upgrade label -/

/-- C6: a node in `UpgradeRequired` bearing the skip-upgrade label is never
written a new phase by any pass, however many slots are available, and it
consumes no slot: the UpgradeRequired loop behaves on any list containing it
exactly as on the list with it removed, at every limit. -/
theorem c6_skip_label (c : Collaborators) (s : ClusterUpgradeState)
    (p : DriverUpgradePolicySpec) (u : NodeUpgradeState)
    (hskip : skipNodeUpgrade u.node = true)
    (_hmem : u ∈ s.nodeStates UpgradeState.upgradeRequired)
    (honly : ∀ ph, ph ≠ UpgradeState.upgradeRequired →
      ∀ v ∈ s.nodeStates ph, v.node ≠ u.node) :
    (∀ st, Effect.changeNodeUpgradeState u.node st ∉
      (ApplyState c (some s) (some p)).trace) ∧
    (∀ (limit : Int) (l1 l2 : List NodeUpgradeState),
      processUpgradeRequiredList c limit (l1 ++ u :: l2) =
        processUpgradeRequiredList c limit (l1 ++ l2)) := by
  constructor
  · intro st hx
    rcases write_origin hx with h | h | h | h | h | h | h | h | h
    · rcases h with ⟨v, hv, hvn⟩
      exact honly UpgradeState.unknown (by decide) v hv hvn
    · rcases h with ⟨v, hv, hvn⟩
      exact honly UpgradeState.done (by decide) v hv hvn
    · rcases h with ⟨v, hv, hvn, hvskip⟩
      rw [hvn, hskip] at hvskip
      simp at hvskip
    · rcases h with ⟨v, hv, hvn, _⟩
      exact honly UpgradeState.cordonRequired (by decide) v hv hvn
    · rcases h with ⟨v, hv, hvn⟩
      exact honly UpgradeState.waitForJobsRequired (by decide) v hv hvn
    · rcases h with ⟨v, hv, hvn⟩
      exact honly UpgradeState.drainRequired (by decide) v hv hvn
    · rcases h with ⟨v, hv, hvn⟩
      exact honly UpgradeState.podRestartRequired (by decide) v hv hvn
    · rcases h with ⟨v, hv, hvn⟩
      exact honly UpgradeState.failed (by decide) v hv hvn
    · rcases h with ⟨v, hv, hvn⟩
      exact honly UpgradeState.uncordonRequired (by decide) v hv hvn
  · intro limit l1 l2
    induction l1 generalizing limit with
    | nil =>
      simp only [List.nil_append]
      by_cases h0 : limit ≤ 0
      · rw [processUpgradeRequiredList_nonpos c h0,
          processUpgradeRequiredList_nonpos c h0]
      · rw [processUpgradeRequiredList_cons, if_neg h0, if_pos hskip]
    | cons v l1' ih =>
      simp only [List.cons_append]
      rw [processUpgradeRequiredList_cons, processUpgradeRequiredList_cons]
      by_cases h0 : limit ≤ 0
      · rw [if_pos h0, if_pos h0]
      · rw [if_neg h0, if_neg h0]
        by_cases hsv : skipNodeUpgrade v.node
        · rw [if_pos hsv, if_pos hsv]
          exact ih limit
        · rw [if_neg hsv, if_neg hsv]
          cases hw : c.changeNodeUpgradeState v.node UpgradeState.cordonRequired with
          | ok a =>
            dsimp only
            rw [ih (limit - 1)]
          | error e => rfl

/-- Witness for C6 on a single skip-labelled node needing upgrade. -/
theorem c6_skip_label_witness :
    skipNodeUpgrade nodeSkip = true ∧
    Effect.changeNodeUpgradeState nodeSkip UpgradeState.cordonRequired ∉
      (ApplyState collabOK (some (snapOne UpgradeState.upgradeRequired [unitSkip]))
        (some policyTwo)).trace :=
  ⟨by decide,
   (c6_skip_label collabOK (snapOne UpgradeState.upgradeRequired [unitSkip]) policyTwo
      unitSkip (by decide) (by decide) (by decide)).1 UpgradeState.cordonRequired⟩

/-! ### C7 — cordon failure -/

/-- C7: if the cordon manager fails for a `CordonRequired` node (with the
pass having reached that node), `ApplyState` returns exactly that error and
no phase write is ever issued for that node, so its phase remains
`CordonRequired`; for any node whose cordon call succeeds, the cordon call is
followed by the move to `WaitForJobsRequired`. -/
theorem c7_cordon_failure (c : Collaborators) (s : ClusterUpgradeState)
    (p : DriverUpgradePolicySpec) (hauto : p.autoUpgrade = true)
    (l1 l2 : List NodeUpgradeState) (u : NodeUpgradeState) (e : String)
    (hsplit : s.nodeStates UpgradeState.cordonRequired = l1 ++ u :: l2)
    (h1 : (ProcessDoneOrUnknownNodes c s UpgradeState.unknown).err = none)
    (h2 : (ProcessDoneOrUnknownNodes c s UpgradeState.done).err = none)
    (h3 : (ProcessUpgradeRequiredNodes c s (upgradesAvailable s p)).err = none)
    (hpre : (seqMap (processCordonOne c) l1).err = none)
    (hfail : c.cordon u.node = Except.error e)
    (honly : ∀ ph, ph ≠ UpgradeState.cordonRequired →
      ∀ v ∈ s.nodeStates ph, v.node ≠ u.node) :
    (ApplyState c (some s) (some p)).err = some e ∧
    (∀ st, Effect.changeNodeUpgradeState u.node st ∉
      (ApplyState c (some s) (some p)).trace) ∧
    (∀ v : NodeUpgradeState, c.cordon v.node = Except.ok () →
      c.changeNodeUpgradeState v.node UpgradeState.waitForJobsRequired = Except.ok () →
      processCordonOne c v =
        ⟨[Effect.cordon v.node,
          Effect.changeNodeUpgradeState v.node UpgradeState.waitForJobsRequired], none⟩) := by
  have hone : (processCordonOne c u).err = some e := by
    unfold processCordonOne
    rw [collabCall_error (Effect.cordon u.node) hfail]
    rw [ProcRes.seq_of_some _ rfl]
  have hstage4 : (ProcessCordonRequiredNodes c s).err = some e := by
    unfold ProcessCordonRequiredNodes
    rw [hsplit, seqMap_append]
    simp only [seqMap]
    rw [ProcRes.seq_of_some _ hone]
    rw [ProcRes.seq_of_none _ hpre]
  refine ⟨?_, ?_, ?_⟩
  · rw [(applyStateRun c s p hauto).2]
    simp only [stageList, firstErr, h1, h2, h3, hstage4]
  · intro st hx
    rcases write_origin hx with h | h | h | h | h | h | h | h | h
    · rcases h with ⟨v, hv, hvn⟩
      exact honly UpgradeState.unknown (by decide) v hv hvn
    · rcases h with ⟨v, hv, hvn⟩
      exact honly UpgradeState.done (by decide) v hv hvn
    · rcases h with ⟨v, hv, hvn, _⟩
      exact honly UpgradeState.upgradeRequired (by decide) v hv hvn
    · rcases h with ⟨v, hv, hvn, hvok⟩
      rw [hvn, hfail] at hvok
      simp at hvok
    · rcases h with ⟨v, hv, hvn⟩
      exact honly UpgradeState.waitForJobsRequired (by decide) v hv hvn
    · rcases h with ⟨v, hv, hvn⟩
      exact honly UpgradeState.drainRequired (by decide) v hv hvn
    · rcases h with ⟨v, hv, hvn⟩
      exact honly UpgradeState.podRestartRequired (by decide) v hv hvn
    · rcases h with ⟨v, hv, hvn⟩
      exact honly UpgradeState.failed (by decide) v hv hvn
    · rcases h with ⟨v, hv, hvn⟩
      exact honly UpgradeState.uncordonRequired (by decide) v hv hvn
  · intro v hcv hwv
    unfold processCordonOne
    rw [collabCall_ok _ hcv, collabCall_ok _ hwv]
    rw [ProcRes.seq_of_none _ rfl]
    rfl

/-- Witness for C7: a single `CordonRequired` node whose cordon call fails
leaves `ApplyState` with that error and no phase write for the node. -/
theorem c7_cordon_failure_witness :
    collabCordonFail.cordon nodeA = Except.error "cordon failed" ∧
    (ApplyState collabCordonFail (some (snapOne UpgradeState.cordonRequired [unitOld]))
      (some policyTwo)).err = some "cordon failed" ∧
    Effect.changeNodeUpgradeState nodeA UpgradeState.waitForJobsRequired ∉
      (ApplyState collabCordonFail (some (snapOne UpgradeState.cordonRequired [unitOld]))
        (some policyTwo)).trace := by
  have h := c7_cordon_failure collabCordonFail
    (snapOne UpgradeState.cordonRequired [unitOld]) policyTwo rfl [] [] unitOld
    "cordon failed" rfl rfl rfl rfl rfl rfl (by decide)
  exact ⟨rfl, h.1, h.2.1 UpgradeState.waitForJobsRequired⟩

/-! ### C3 — Unknown/Done classification -/

/-- C3: once the pass reaches a node in the Unknown or Done phase whose
template generation is readable: if it differs from the daemonset generation
the node is moved to `UpgradeRequired`, with the preservation marker stamped
immediately before the phase write exactly when the node is unschedulable; if
the generations match, an Unknown node is moved to `Done` and a Done node
receives no call at all. -/
theorem c3_doneOrUnknown_transitions (c : Collaborators) (s : ClusterUpgradeState)
    (st : UpgradeState) (_hst : st = UpgradeState.unknown ∨ st = UpgradeState.done)
    (l1 l2 : List NodeUpgradeState) (u : NodeUpgradeState) (g : Int)
    (hsplit : s.nodeStates st = l1 ++ u :: l2)
    (hpre : (seqMap (processDoneOrUnknownOne c st) l1).err = none)
    (hg : GetPodTemplateGeneration u.driverPod = Except.ok g)
    (hannot : c.changeNodeUpgradeAnnot u.node
      GetUpgradeInitialStateAnnotationKey "true" = Except.ok ())
    (hwrite : ∀ target, c.changeNodeUpgradeState u.node target = Except.ok ()) :
    (ProcessDoneOrUnknownNodes c s st).trace =
      (seqMap (processDoneOrUnknownOne c st) l1).trace ++
      ((if g ≠ u.driverDaemonSet.generation then
          (if u.node.unschedulable = true then
            [Effect.changeNodeUpgradeAnnot u.node GetUpgradeInitialStateAnnotationKey "true",
             Effect.changeNodeUpgradeState u.node UpgradeState.upgradeRequired]
           else [Effect.changeNodeUpgradeState u.node UpgradeState.upgradeRequired])
        else if st = UpgradeState.unknown then
          [Effect.changeNodeUpgradeState u.node UpgradeState.done]
        else []) ++
       (seqMap (processDoneOrUnknownOne c st) l2).trace) := by
  have hone : processDoneOrUnknownOne c st u =
      ⟨(if g ≠ u.driverDaemonSet.generation then
          (if u.node.unschedulable = true then
            [Effect.changeNodeUpgradeAnnot u.node GetUpgradeInitialStateAnnotationKey "true",
             Effect.changeNodeUpgradeState u.node UpgradeState.upgradeRequired]
           else [Effect.changeNodeUpgradeState u.node UpgradeState.upgradeRequired])
        else if st = UpgradeState.unknown then
          [Effect.changeNodeUpgradeState u.node UpgradeState.done]
        else []), none⟩ := by
    unfold processDoneOrUnknownOne
    rw [hg]
    dsimp only
    rw [isNodeUnschedulable_eq]
    by_cases hne : g = u.driverDaemonSet.generation
    · rw [if_neg (not_not_intro hne), if_neg (not_not_intro hne)]
      by_cases hstu : st = UpgradeState.unknown
      · rw [if_pos hstu, if_pos hstu, collabCall_ok _ (hwrite UpgradeState.done)]
      · rw [if_neg hstu, if_neg hstu]
        rfl
    · rw [if_pos hne, if_pos hne]
      by_cases hu : u.node.unschedulable = true
      · rw [if_pos hu, if_pos hu, collabCall_ok _ hannot,
          collabCall_ok _ (hwrite UpgradeState.upgradeRequired),
          ProcRes.seq_of_none _ rfl]
        rfl
      · rw [if_neg hu, if_neg hu,
          collabCall_ok _ (hwrite UpgradeState.upgradeRequired),
          ProcRes.seq_ok_left]
  unfold ProcessDoneOrUnknownNodes
  rw [hsplit, seqMap_append]
  simp only [seqMap]
  rw [hone]
  rw [ProcRes.seq_of_none _ hpre]
  rw [ProcRes.seq_of_none _ rfl]

/-- Witness for C3: a single Unknown unschedulable node at the old
generation gets the marker stamp followed by the move to `UpgradeRequired`. -/
theorem c3_doneOrUnknown_transitions_witness :
    GetPodTemplateGeneration podOld = Except.ok 1 ∧
    (ProcessDoneOrUnknownNodes collabOK (snapOne UpgradeState.unknown [unitUnschedOld])
        UpgradeState.unknown).trace =
      [Effect.changeNodeUpgradeAnnot nodeUnsched GetUpgradeInitialStateAnnotationKey "true",
       Effect.changeNodeUpgradeState nodeUnsched UpgradeState.upgradeRequired] := by
  refine ⟨rfl, ?_⟩
  have h := c3_doneOrUnknown_transitions collabOK
    (snapOne UpgradeState.unknown [unitUnschedOld]) UpgradeState.unknown (Or.inl rfl)
    [] [] unitUnschedOld 1 rfl rfl rfl rfl (fun _ => rfl)
  rw [h]
  rfl

/-! ### C4 — the preservation-marker round trip at upgrade completion -/

/-- C4: for a node in `PodRestartRequired` or `Failed` whose driver pod is in
sync: with the preservation marker present, both processors set the phase
directly to `Done` and then clear the marker by writing `"null"`; with the
marker absent, they set the phase to `UncordonRequired`; and no uncordon call
is ever issued in a pass whose `UncordonRequired` list does not contain the
node. -/
theorem c4_finish_marker (c : Collaborators) (u : NodeUpgradeState)
    (hsync : isDriverPodInSync u = Except.ok true) :
    ((lookupKV u.node.annotations GetUpgradeInitialStateAnnotationKey).isSome = true →
      c.changeNodeUpgradeState u.node UpgradeState.done = Except.ok () →
      c.changeNodeUpgradeAnnot u.node GetUpgradeInitialStateAnnotationKey "null"
        = Except.ok () →
      processPodRestartOne c u =
        (⟨[Effect.changeNodeUpgradeState u.node UpgradeState.done,
           Effect.changeNodeUpgradeAnnot u.node GetUpgradeInitialStateAnnotationKey "null"],
          none⟩, []) ∧
      processUpgradeFailedOne c u =
        ⟨[Effect.changeNodeUpgradeState u.node UpgradeState.done,
          Effect.changeNodeUpgradeAnnot u.node GetUpgradeInitialStateAnnotationKey "null"],
         none⟩) ∧
    ((lookupKV u.node.annotations GetUpgradeInitialStateAnnotationKey).isSome = false →
      processPodRestartOne c u =
        (collabCall (Effect.changeNodeUpgradeState u.node UpgradeState.uncordonRequired)
          (c.changeNodeUpgradeState u.node UpgradeState.uncordonRequired), []) ∧
      processUpgradeFailedOne c u =
        collabCall (Effect.changeNodeUpgradeState u.node UpgradeState.uncordonRequired)
          (c.changeNodeUpgradeState u.node UpgradeState.uncordonRequired)) ∧
    (∀ (s : ClusterUpgradeState) (p : DriverUpgradePolicySpec),
      (∀ v ∈ s.nodeStates UpgradeState.uncordonRequired, v.node ≠ u.node) →
      Effect.uncordon u.node ∉ (ApplyState c (some s) (some p)).trace) := by
  obtain ⟨g, hg, hgen⟩ : ∃ g, GetPodTemplateGeneration u.driverPod = Except.ok g ∧
      g = u.driverDaemonSet.generation := by
    unfold isDriverPodInSync at hsync
    cases hgg : GetPodTemplateGeneration u.driverPod with
    | error e =>
      rw [hgg] at hsync
      simp at hsync
    | ok g =>
      rw [hgg] at hsync
      dsimp only at hsync
      refine ⟨g, rfl, ?_⟩
      by_cases hcond : g = u.driverDaemonSet.generation ∧
          u.driverPod.statusPhase = "Running" ∧ u.driverPod.containerStatuses ≠ []
      · exact hcond.1
      · rw [if_neg hcond] at hsync
        simp at hsync
  refine ⟨?_, ?_, ?_⟩
  · intro hann hdone hannok
    constructor
    · unfold processPodRestartOne
      rw [hg]
      dsimp only
      rw [if_neg (not_not_intro hgen)]
      rw [hsync]
      dsimp only
      rw [if_pos rfl]
      simp only [hann, eq_self_iff_true, if_true]
      rw [collabCall_ok _ hdone, collabCall_ok _ hannok, ProcRes.seq_of_none _ rfl]
      rfl
    · unfold processUpgradeFailedOne
      rw [hsync]
      dsimp only
      rw [if_pos rfl]
      simp only [hann, eq_self_iff_true, if_true]
      rw [collabCall_ok _ hdone, collabCall_ok _ hannok, ProcRes.seq_of_none _ rfl]
      rfl
  · intro hann
    constructor
    · unfold processPodRestartOne
      rw [hg]
      dsimp only
      rw [if_neg (not_not_intro hgen)]
      rw [hsync]
      dsimp only
      rw [if_pos rfl]
      simp only [hann, Bool.false_eq_true, if_false]
      rw [if_neg (by decide)]
    · unfold processUpgradeFailedOne
      rw [hsync]
      dsimp only
      rw [if_pos rfl]
      simp only [hann, Bool.false_eq_true, if_false]
      rw [if_neg (by decide)]
  · intro s p hno hx
    rcases uncordon_origin hx with ⟨v, hv, hvn⟩
    exact hno v hv hvn

/-- Witness for C4: an in-sync unit on a marker-carrying node lands in `Done`
with the marker cleared and no uncordon call in the pass. -/
theorem c4_finish_marker_witness :
    isDriverPodInSync unitSyncMarked = Except.ok true ∧
    processPodRestartOne collabOK unitSyncMarked =
      (⟨[Effect.changeNodeUpgradeState nodeMarked UpgradeState.done,
         Effect.changeNodeUpgradeAnnot nodeMarked GetUpgradeInitialStateAnnotationKey "null"],
        none⟩, []) ∧
    Effect.uncordon nodeMarked ∉
      (ApplyState collabOK
        (some (snapOne UpgradeState.podRestartRequired [unitSyncMarked]))
        (some policyTwo)).trace := by
  have h := c4_finish_marker collabOK unitSyncMarked (by decide)
  exact ⟨by decide, (h.1 (by decide) rfl rfl).1,
    h.2.2 (snapOne UpgradeState.podRestartRequired [unitSyncMarked]) policyTwo (by decide)⟩

/-! ### C1 — concurrency-slot accounting -/

/-- C1: in one enabled pass, with `upgradesInProgress` counted as the nodes
in the seven in-flight phases, at most
`max (MaxParallelUpgrades - upgradesInProgress) 0` moves to `CordonRequired`
are issued when `MaxParallelUpgrades ≠ 0`; with `MaxParallelUpgrades = 0`
every eligible (non-skip-labelled) `UpgradeRequired` node is moved, provided
the pass reaches that step and the state provider accepts the writes. -/
theorem c1_slot_accounting (c : Collaborators) (s : ClusterUpgradeState)
    (p : DriverUpgradePolicySpec) (hauto : p.autoUpgrade = true) :
    (p.maxParallelUpgrades ≠ 0 →
      (((ApplyState c (some s) (some p)).trace.countP Effect.isMoveToCordon : Int)) ≤
        max (p.maxParallelUpgrades - (upgradesInProgress s : Int)) 0) ∧
    (p.maxParallelUpgrades = 0 →
      (ProcessDoneOrUnknownNodes c s UpgradeState.unknown).err = none →
      (ProcessDoneOrUnknownNodes c s UpgradeState.done).err = none →
      (∀ u ∈ s.nodeStates UpgradeState.upgradeRequired,
        c.changeNodeUpgradeState u.node UpgradeState.cordonRequired = Except.ok ()) →
      ∀ u ∈ s.nodeStates UpgradeState.upgradeRequired, skipNodeUpgrade u.node = false →
        Effect.changeNodeUpgradeState u.node UpgradeState.cordonRequired ∈
          (ApplyState c (some s) (some p)).trace) := by
  constructor
  · intro hN
    rw [(applyStateRun c s p hauto).1]
    have hle := countP_traceUntilErr_le Effect.isMoveToCordon (stageList c s p)
    have hsum : ((stageList c s p).map
        (fun r => r.trace.countP Effect.isMoveToCordon)).sum =
        (ProcessUpgradeRequiredNodes c s (upgradesAvailable s p)).trace.countP
          Effect.isMoveToCordon := by
      simp only [stageList, List.map_cons, List.map_nil, List.sum_cons, List.sum_nil,
        moves_zero_doneOrUnknown, moves_zero_cordonStage, moves_zero_waitStage,
        moves_zero_podDeletionStage, moves_zero_drainStage, moves_zero_podRestartStage,
        moves_zero_failedStage, moves_zero_uncordonStage]
      omega
    have hlen : (ProcessUpgradeRequiredNodes c s (upgradesAvailable s p)).trace.countP
        Effect.isMoveToCordon ≤ (upgradesAvailable s p).toNat :=
      le_trans (List.countP_le_length _)
        (processUpgradeRequiredList_length_le c (upgradesAvailable s p) _)
    have htot : (traceUntilErr (stageList c s p)).countP Effect.isMoveToCordon ≤
        (upgradesAvailable s p).toNat := le_trans hle (hsum ▸ hlen)
    have hav : upgradesAvailable s p =
        p.maxParallelUpgrades - (upgradesInProgress s : Int) := by
      unfold upgradesAvailable
      rw [if_neg hN]
    rw [← hav]
    omega
  · intro hN h1 h2 hok u hu hskip
    have hav : upgradesAvailable s p =
        ((s.nodeStates UpgradeState.upgradeRequired).length : Int) := by
      unfold upgradesAvailable
      rw [if_pos hN]
    have heff : Effect.changeNodeUpgradeState u.node UpgradeState.cordonRequired ∈
        (ProcessUpgradeRequiredNodes c s (upgradesAvailable s p)).trace := by
      unfold ProcessUpgradeRequiredNodes
      rw [hav]
      exact processUpgradeRequiredList_all_moved c _ _ (le_refl _) hok u hu hskip
    rw [(applyStateRun c s p hauto).1]
    have hshape : stageList c s p =
        [ProcessDoneOrUnknownNodes c s UpgradeState.unknown,
         ProcessDoneOrUnknownNodes c s UpgradeState.done] ++
        ProcessUpgradeRequiredNodes c s (upgradesAvailable s p) ::
        [ProcessCordonRequiredNodes c s,
         ProcessWaitForJobsRequiredNodes c s p.waitForCompletion,
         ProcessPodDeletionRequiredNodes c s p.podDeletion,
         (ProcessDrainNodes c s p.drainSpec).1,
         ProcessPodRestartNodes c s, ProcessUpgradeFailedNodes c s,
         ProcessUncordonRequiredNodes c s] := rfl
    rw [hshape]
    exact mem_traceUntilErr_of_stage _ (by simp [firstErr, h1, h2]) heff

/-- Witness for C1: three nodes need an upgrade, `MaxParallelUpgrades = 2`,
nothing is in flight — exactly two moves to `CordonRequired` are issued,
within the proved bound. -/
theorem c1_slot_accounting_witness :
    policyTwo.maxParallelUpgrades ≠ 0 ∧
    (ApplyState collabOK
        (some (snapOne UpgradeState.upgradeRequired
          [unitOld, ⟨nodeB, podOld, dsGen2⟩, ⟨nodeC, podOld, dsGen2⟩]))
        (some policyTwo)).trace.countP Effect.isMoveToCordon = 2 ∧
    (((ApplyState collabOK
        (some (snapOne UpgradeState.upgradeRequired
          [unitOld, ⟨nodeB, podOld, dsGen2⟩, ⟨nodeC, podOld, dsGen2⟩]))
        (some policyTwo)).trace.countP Effect.isMoveToCordon : Int) ≤
      max (policyTwo.maxParallelUpgrades -
        (upgradesInProgress (snapOne UpgradeState.upgradeRequired
          [unitOld, ⟨nodeB, podOld, dsGen2⟩, ⟨nodeC, podOld, dsGen2⟩]) : Int)) 0) := by
  refine ⟨by decide, by decide, ?_⟩
  exact (c1_slot_accounting collabOK
    (snapOne UpgradeState.upgradeRequired
      [unitOld, ⟨nodeB, podOld, dsGen2⟩, ⟨nodeC, podOld, dsGen2⟩])
    policyTwo rfl).1 (by decide)

end Upgrade
